import Mathlib

/-!
Verification of the IDSCP2 core finite state machine
(`src/idscp_core/src/fsm/mod.rs`) and the RAT driver interface
(`src/idscp_core/src/fsm/rat_interface.rs`) against the natural-language
specification.  The Rust is embedded shallowly: the FSM fields that the
transition logic reads or writes become a Lean structure, `process_event`
becomes a pure step function from an event and an environment (capturing
the results of the external collaborators: secure-channel writes, the DAPS
oracle, the RAT driver registry) to a new state, a list of emitted
side-effect records, and a result value.
-/

namespace Idscp2

/-- Modelled from the spec: the file `alternating_bit.rs` is declared by
`mod alternating_bit;` in `mod.rs` but is not part of the sources at hand.
Per the spec (section 3, "AlternatingBit") it is a single-bit value with a
flip (`alternate`) operation, initialised to 0, convertible from the wire
boolean (`from_bool`). -/
structure AlternatingBit where
  bit : Bool
deriving DecidableEq

/-- Modelled from the spec: a fresh alternating bit is initialised to 0. -/
def AlternatingBit.new : AlternatingBit := ⟨false⟩

/-- Modelled from the spec: conversion from the wire boolean. -/
def AlternatingBit.from_bool (b : Bool) : AlternatingBit := ⟨b⟩

/-- Modelled from the spec: the flip operation on the single bit. -/
def AlternatingBit.alternate (a : AlternatingBit) : AlternatingBit := ⟨!a.bit⟩

/-- Modelled from the spec: error value returned by `action_recv_ack` on an
ack that does not consume the pending message (declared in the missing
`alternating_bit.rs`). -/
structure AlternatingBitError where
deriving DecidableEq

/-- Close causes of the `IdscpClose` message (spec section 6; the wire
schema itself is external to the sources). -/
inductive CloseCause where
  | USER_SHUTDOWN
  | TIMEOUT
  | NO_VALID_DAT
  | RAT_PROVER_FAILED
  | RAT_VERIFIER_FAILED
  | ERROR
deriving DecidableEq

/-- Modelled from the spec: the abstract IDSCP2 peer-message union of
section 6 (the byte layout and the protobuf message structs live outside
the given sources; `mod.rs` only constructs and destructs them). Tokens
and payloads are byte lists, suites are identifier lists. -/
inductive IdscpMessage where
  | Hello (dat : Option (List Nat)) (expectedRatSuite supportedRatSuite : List String)
  | Close (cause : CloseCause) (msg : String)
  | Dat (token : List Nat)
  | DatExpired
  | RatProver (data : List Nat)
  | RatVerifier (data : List Nat)
  | ReRat (cause : String)
  | Data (payload : List Nat) (alternating_bit : Bool)
  | Ack (alternating_bit : Bool)
deriving DecidableEq

/-- RAT driver internal control message (`RatIcm` in `rat_driver.rs`,
destructed in `mod.rs`). -/
inductive RatIcm where
  | OK
  | Failed
deriving DecidableEq

/-- RAT driver message (`RatMessage` in `rat_driver.rs`): either a control
token or raw bytes. -/
inductive RatMessage where
  | ControlMessage (icm : RatIcm)
  | RawData (data : List Nat)
deriving DecidableEq

/-- User events fed by the upper layer (`UserEvent` in `mod.rs`). -/
inductive UserEvent where
  | StartHandshake
  | Stop
  | RepeatRat
  | Data (data : List Nat)
deriving DecidableEq

/-- Decoded peer message events (`SecureChannelEvent` in `mod.rs`). The
protobuf payload structs are flattened into the constructor fields. -/
inductive SecureChannelEvent where
  | Close (cause : CloseCause) (cause_msg : String)
  | Hello (dat : Option (List Nat)) (expectedRatSuite supportedRatSuite : List String)
  | Dat (token : List Nat)
  | DatExp
  | RatProver (data : List Nat)
  | RatVerifier (data : List Nat)
  | ReRat (cause : String)
  | Data (data : List Nat) (alternating_bit : Bool)
  | Error
  | Ack (alternating_bit : Bool)
deriving DecidableEq

/-- FSM events (`FsmEvent` in `mod.rs`). -/
inductive FsmEvent where
  | FromRatProver (msg : RatMessage)
  | FromRatVerifier (msg : RatMessage)
  | FromUpper (e : UserEvent)
  | FromSecureChannel (e : SecureChannelEvent)
  | RatTimeout
  | DatTimeout
  | HandshakeTimeout
  | AckTimeout
deriving DecidableEq

/-- Internal status of the `Closed` state (`ClosedStateStatus` in `mod.rs`). -/
inductive ClosedStateStatus where
  | Locked
  | Unlocked
deriving DecidableEq

/-- FSM states (`FsmState` in `mod.rs`). -/
inductive FsmState where
  | Closed (status : ClosedStateStatus)
  | WaitForHello
  | WaitForRat
  | WaitForRatProver
  | WaitForRatVerifier
  | WaitForDatAndRat
  | WaitForDatAndRatVerifier
  | WaitForAck
  | Established
deriving DecidableEq

/-- Handshake result published through the rendezvous cell
(`HandshakeResult` in `mod.rs`). -/
inductive HandshakeResult where
  | NotAvailable
  | Failed
  | Successful
deriving DecidableEq

/-- Ack flag (`AckFlag` in `mod.rs`): `Active` caches the unacknowledged
payload bytes. -/
inductive AckFlag where
  | Active (payload : List Nat)
  | Inactive
deriving DecidableEq

/-- RAT negotiation error (`RatNegotiationError` in `mod.rs`). -/
inductive RatNegotiationError where
  | NoRatMechanismMatch
deriving DecidableEq

/-- RAT interface errors (`RatError` in `rat_interface.rs`). -/
inductive RatError where
  | RegistryNotAvailable
  | UnknownRatDriver
  | RatDriverInactive
  | RatConnectionAborted
  | RatDriverNotCached
deriving DecidableEq

/-- Modelled from the spec: the secure-channel interface error type
(`ScIfError` in the missing `sc_interface.rs`); only its existence matters
to `mod.rs`, which wraps it in `FsmError::IoError`. A single write-failure
case suffices for the embedding. -/
inductive ScIfError where
  | WriteError
deriving DecidableEq

/-- FSM error taxonomy (`FsmError` in `mod.rs`). -/
inductive FsmError where
  | UnknownTransition
  | FsmLocked
  | FsmNotStarted
  | MissingDat
  | InvalidDat
  | IoError (e : ScIfError)
  | RatError (e : RatError)
  | RatNegotiationError (e : RatNegotiationError)
  | WouldBlock
  | NotConnected
  | IdscpDataNotCached
deriving DecidableEq

/-- Attestation configuration (`AttestationConfig` in
`idscp_configuration.rs`, consumed by `mod.rs`; the `rat_timeout` duration
only parameterises a timer and is not modelled). -/
structure AttestationConfig where
  expected_attestation_suite : List String
  supported_attestation_suite : List String
deriving DecidableEq

/-- The FSM fields read or written by `process_event`
(`FiniteStateMachine` in `mod.rs`). Timers are modelled by their armed
flag (`start` arms, `cancel` disarms); the handshake rendezvous cell and
its published-once flag are inlined. -/
structure Fsm where
  current_state : FsmState
  handshake_timer : Bool
  prover_timer : Bool
  verifier_timer : Bool
  rat_timer : Bool
  ack_timer : Bool
  dat_timer : Bool
  handshake_result : HandshakeResult
  handshake_result_available : Bool
  rat_config : AttestationConfig
  ack_flag : AckFlag
  expected_alternating_bit : AlternatingBit
  next_send_alternating_bit : AlternatingBit
deriving DecidableEq

/-- The FSM as constructed by `FiniteStateMachine::create`: state
`Closed(Unlocked)`, no timer armed, no handshake result, `AckFlag`
inactive and both alternating bits fresh. -/
def initialFsm (cfg : AttestationConfig) : Fsm where
  current_state := .Closed .Unlocked
  handshake_timer := false
  prover_timer := false
  verifier_timer := false
  rat_timer := false
  ack_timer := false
  dat_timer := false
  handshake_result := .NotAvailable
  handshake_result_available := false
  rat_config := cfg
  ack_flag := .Inactive
  expected_alternating_bit := .new
  next_send_alternating_bit := .new

/-- Side effects emitted by a `process_event` call towards the external
collaborators: writes to the secure channel, deliveries to the upper
layer, and RAT-driver lifecycle commands. -/
inductive Output where
  | ScWrite (msg : IdscpMessage)
  | ScUnlock
  | ScStop
  | OnMessage (data : List Nat)
  | OnClose
  | StartProverDriver (mechanism : String)
  | StartVerifierDriver (mechanism : String)
  | RestartProverDriver
  | RestartVerifierDriver
  | StopProverDriver
  | StopVerifierDriver
  | ToProverDriver (msg : RatMessage)
  | ToVerifierDriver (msg : RatMessage)
deriving DecidableEq

/-- Results of the external collaborators during one `process_event` call:
whether the secure-channel write succeeds, the DAPS oracle
(`get_token` / `verify_token`), UTF-8 parsing of a received token, and the
outcome of starting/restarting or writing to each RAT driver (`none`
meaning success). -/
structure Env where
  scWriteOk : Bool
  getToken : List Nat
  parseUtf8 : List Nat → Option (List Nat)
  verifyToken : List Nat → Option Nat
  proverDriver : Option RatError
  verifierDriver : Option RatError
  proverWrite : Option RatError
  verifierWrite : Option RatError

instance {ε α : Type} [DecidableEq ε] [DecidableEq α] : DecidableEq (Except ε α) :=
  fun a b =>
    match a, b with
    | .ok x, .ok y =>
        if h : x = y then isTrue (by rw [h]) else isFalse (by simp [h])
    | .error x, .error y =>
        if h : x = y then isTrue (by rw [h]) else isFalse (by simp [h])
    | .ok _, .error _ => isFalse (by simp)
    | .error _, .ok _ => isFalse (by simp)

/-- Result of one `process_event` call: the new FSM, the emitted side
effects in order, and the returned `Result`. -/
structure Step where
  fsm : Fsm
  out : List Output
  res : Except FsmError Unit
deriving DecidableEq

/-! Message factory (`idscp_message_factory`, constructed from the spec's
message schema; the factory module is outside the given sources). -/

/-- Modelled from the spec: build an `IdscpHello` with own DAT and suites. -/
def create_idscp_hello (dat : List Nat) (expected supported : List String) : IdscpMessage :=
  .Hello (some dat) expected supported

/-- Modelled from the spec: build an `IdscpClose` with cause and text. -/
def create_idscp_close (cause : CloseCause) (msg : String) : IdscpMessage :=
  .Close cause msg

/-- Modelled from the spec: build an `IdscpDatExpired`. -/
def create_idscp_dat_exp : IdscpMessage := .DatExpired

/-- Modelled from the spec: build an `IdscpDat` carrying a token. -/
def create_idscp_dat (token : List Nat) : IdscpMessage := .Dat token

/-- Modelled from the spec: build an `IdscpReRat` with a cause string. -/
def create_idscp_re_rat (cause : String) : IdscpMessage := .ReRat cause

/-- Modelled from the spec: build an `IdscpData` carrying the payload and
the current send alternating bit. -/
def create_idscp_data (data : List Nat) (b : AlternatingBit) : IdscpMessage :=
  .Data data b.bit

/-- Modelled from the spec: build an `IdscpAck` carrying an alternating
bit. -/
def create_idscp_ack (b : AlternatingBit) : IdscpMessage := .Ack b.bit

/-- Modelled from the spec: build an `IdscpRatProver` message. -/
def create_idscp_rat_prover (data : List Nat) : IdscpMessage := .RatProver data

/-- Modelled from the spec: build an `IdscpRatVerifier` message. -/
def create_idscp_rat_verifier (data : List Nat) : IdscpMessage := .RatVerifier data

/-! Negotiation of RAT mechanisms (`mod.rs`, lines 1468-1517). -/

/-- `FiniteStateMachine::calculate_rat_algorithms`: scan `primary` in
order and return the first element that also occurs in `secondary`;
otherwise fail with `NoRatMechanismMatch`. The Rust nested `for` loops
with early return are expressed by structural recursion on `primary`. -/
def calculate_rat_algorithms : List String → List String → Except RatNegotiationError String
  | [], _ => .error .NoRatMechanismMatch
  | p :: ps, secondary =>
      if secondary.contains p then .ok p
      else calculate_rat_algorithms ps secondary

/-- `FiniteStateMachine::calculate_rat_verifier_mechanism`: empty-input
guards, then `calculate_rat_algorithms` with own expected suites as the
primary list. -/
def calculate_rat_verifier_mechanism (peer_rat_supported_suites own_rat_expected_suites : List String) :
    Except RatNegotiationError String :=
  if peer_rat_supported_suites.isEmpty then .error .NoRatMechanismMatch
  else if own_rat_expected_suites.isEmpty then .error .NoRatMechanismMatch
  else calculate_rat_algorithms own_rat_expected_suites peer_rat_supported_suites

/-- `FiniteStateMachine::calculate_rat_prover_mechanism`: empty-input
guards, then `calculate_rat_algorithms` with the peer expected suites as
the primary list. -/
def calculate_rat_prover_mechanism (peer_rat_expected_suites own_rat_supported_suites : List String) :
    Except RatNegotiationError String :=
  if peer_rat_expected_suites.isEmpty then .error .NoRatMechanismMatch
  else if own_rat_supported_suites.isEmpty then .error .NoRatMechanismMatch
  else calculate_rat_algorithms peer_rat_expected_suites own_rat_supported_suites

/-! RAT driver interface (`rat_interface.rs`). Only the state that
`write_to_driver` consults is modelled: the optional content bundle with
its sender to the worker. A channel sender is modelled by the predicate
saying, for each message, whether `send` succeeds (it fails once the
worker has dropped its receiving end). -/

/-- Content bundle of an active RAT driver (`RatDriverContent` in
`rat_interface.rs`); the listener handle is irrelevant to
`write_to_driver` and omitted. -/
structure RatDriverContent where
  tx_to_driver : RatMessage → Bool
  tx_to_listener : RatMessage → Bool

/-- RAT driver interface state relevant to `write_to_driver`
(`RatDriverInterface` in `rat_interface.rs`). -/
structure RatDriverInterface where
  content : Option RatDriverContent

/-- `RatDriverInterface::write_to_driver`: fail with `RatDriverInactive`
when no content is present, otherwise send on the worker channel and turn
a send failure into `RatConnectionAborted`. -/
def RatDriverInterface.write_to_driver (iface : RatDriverInterface) (msg : RatMessage) :
    Except RatError Unit :=
  match iface.content with
  | none => .error .RatDriverInactive
  | some content =>
      match content.tx_to_driver msg with
      | false => .error .RatConnectionAborted
      | true => .ok ()

/-! Guarded actions of the FSM (`mod.rs`, lines 1397-1925). -/

/-- `FiniteStateMachine::action_start_handshake`: unlock the
secure-channel listener, fetch own DAT, send `IdscpHello`. -/
def action_start_handshake (env : Env) (m : Fsm) : Step where
  fsm := m
  out := [.ScUnlock, .ScWrite (create_idscp_hello env.getToken
            m.rat_config.expected_attestation_suite
            m.rat_config.supported_attestation_suite)]
  res := if env.scWriteOk then .ok () else .error (.IoError .WriteError)

/-- `FiniteStateMachine::dat_timeout_handler`: stop the verifier driver,
cancel the RAT timer and send `IdscpDatExpired`. -/
def dat_timeout_handler (env : Env) (m : Fsm) : Step where
  fsm := { m with rat_timer := false }
  out := [.StopVerifierDriver, .ScWrite create_idscp_dat_exp]
  res := if env.scWriteOk then .ok () else .error (.IoError .WriteError)

/-- `FiniteStateMachine::handshake_timeout_handler`: send
`Close(TIMEOUT)`; a write failure is ignored. -/
def handshake_timeout_handler : List Output :=
  [.ScWrite (create_idscp_close .TIMEOUT "Handshake timeout")]

/-- `FiniteStateMachine::action_stop`: send `Close(USER_SHUTDOWN)`; a
write failure is only logged. -/
def action_stop : List Output :=
  [.ScWrite (create_idscp_close .USER_SHUTDOWN "User shutdown")]

/-- `FiniteStateMachine::cleanup`: cancel all six timers, stop both RAT
drivers, unlock and stop the secure channel. -/
def cleanup (m : Fsm) : Fsm × List Output :=
  ({ m with handshake_timer := false, dat_timer := false, rat_timer := false,
            verifier_timer := false, prover_timer := false, ack_timer := false },
   [.StopProverDriver, .StopVerifierDriver, .ScUnlock, .ScStop])

/-- `FiniteStateMachine::notify_connection_about_close`: deliver
`on_close` to the observer, skipped while no handshake result has been
published. -/
def notify_connection_about_close (m : Fsm) : List Output :=
  if m.handshake_result_available then [.OnClose] else []

/-- The `cleanup`; `notify_connection_about_close`; move to
`Closed(Locked)` sequence shared by the fatal-error arms of
`process_event`. -/
def locked_after (m : Fsm) (out : List Output) (res : Except FsmError Unit) : Step :=
  let c := cleanup m
  { fsm := { c.1 with current_state := .Closed .Locked },
    out := out ++ c.2 ++ notify_connection_about_close c.1,
    res := res }

/-- The `action_stop`; `cleanup`; move to `Closed(Locked)` sequence of
the `Stop` arms (no observer notification: the observer originated the
close). -/
def stopped_step (m : Fsm) : Step :=
  let c := cleanup m
  { fsm := { c.1 with current_state := .Closed .Locked },
    out := action_stop ++ c.2,
    res := .ok () }

/-- `FiniteStateMachine::action_recv_hello`: cancel the handshake timer,
negotiate both mechanisms, validate the peer DAT, arm the DAT timer,
start the verifier then the prover with their timers. -/
def action_recv_hello (env : Env) (m : Fsm)
    (dat : Option (List Nat)) (expectedRatSuite supportedRatSuite : List String) : Step :=
  let m := { m with handshake_timer := false }
  match calculate_rat_prover_mechanism expectedRatSuite m.rat_config.supported_attestation_suite with
  | .error er => { fsm := m, out := [], res := .error (.RatNegotiationError er) }
  | .ok prover_mechanism =>
  match calculate_rat_verifier_mechanism supportedRatSuite m.rat_config.expected_attestation_suite with
  | .error er => { fsm := m, out := [], res := .error (.RatNegotiationError er) }
  | .ok verifier_mechanism =>
  match dat with
  | none =>
      { fsm := m, out := [.ScWrite (create_idscp_close .NO_VALID_DAT "No valid dat")],
        res := .error .MissingDat }
  | some datBytes =>
  match env.parseUtf8 datBytes with
  | none =>
      { fsm := m, out := [.ScWrite (create_idscp_close .NO_VALID_DAT "No valid dat")],
        res := .error .InvalidDat }
  | some remote_dat =>
  match env.verifyToken remote_dat with
  | none =>
      { fsm := m, out := [.ScWrite (create_idscp_close .NO_VALID_DAT "No valid dat")],
        res := .error .InvalidDat }
  | some _t =>
  let m := { m with dat_timer := true }
  match env.verifierDriver with
  | some er =>
      { fsm := m, out := [.StartVerifierDriver verifier_mechanism],
        res := .error (.RatError er) }
  | none =>
  let m := { m with verifier_timer := true }
  match env.proverDriver with
  | some er =>
      { fsm := m,
        out := [.StartVerifierDriver verifier_mechanism, .StartProverDriver prover_mechanism],
        res := .error (.RatError er) }
  | none =>
      { fsm := { m with prover_timer := true },
        out := [.StartVerifierDriver verifier_mechanism, .StartProverDriver prover_mechanism],
        res := .ok () }

/-- `FiniteStateMachine::action_send_data`: send `IdscpData` carrying the
payload and the current send alternating bit. -/
def action_send_data (env : Env) (m : Fsm) (data : List Nat) : Step where
  fsm := m
  out := [.ScWrite (create_idscp_data data m.next_send_alternating_bit)]
  res := if env.scWriteOk then .ok () else .error (.IoError .WriteError)

/-- `FiniteStateMachine::action_recv_data`: on a matching alternating bit
reply with `Ack(received_bit)`, flip the expected bit and deliver the
payload upward; otherwise silently drop the message. -/
def action_recv_data (m : Fsm) (data : List Nat) (alternating_bit : Bool) : Fsm × List Output :=
  let recv_alternating_bit := AlternatingBit.from_bool alternating_bit
  if recv_alternating_bit ≠ m.expected_alternating_bit then (m, [])
  else
    ({ m with expected_alternating_bit := m.expected_alternating_bit.alternate },
     [.ScWrite (create_idscp_ack recv_alternating_bit), .OnMessage data])

/-- `FiniteStateMachine::action_recv_ack`: with an active ack flag and a
matching bit, deactivate the flag, cancel the ack timer and flip the send
bit; otherwise report an `AlternatingBitError`. -/
def action_recv_ack (m : Fsm) (alternating_bit : Bool) :
    Fsm × Except AlternatingBitError Unit :=
  match m.ack_flag with
  | .Active _ =>
      let acknowledged := AlternatingBit.from_bool alternating_bit
      if acknowledged ≠ m.next_send_alternating_bit then (m, .error ⟨⟩)
      else
        ({ m with ack_flag := .Inactive, ack_timer := false,
                  next_send_alternating_bit := m.next_send_alternating_bit.alternate },
         .ok ())
  | .Inactive => (m, .error ⟨⟩)

/-- `FiniteStateMachine::action_re_rat`: cancel the RAT timer, send
`IdscpReRat`, restart the verifier driver and its timer. -/
def action_re_rat (env : Env) (m : Fsm) : Step :=
  let m := { m with rat_timer := false }
  if !env.scWriteOk then
    { fsm := m, out := [.ScWrite (create_idscp_re_rat "")],
      res := .error (.IoError .WriteError) }
  else
    match env.verifierDriver with
    | some er =>
        { fsm := m, out := [.ScWrite (create_idscp_re_rat ""), .RestartVerifierDriver],
          res := .error (.RatError er) }
    | none =>
        { fsm := { m with verifier_timer := true },
          out := [.ScWrite (create_idscp_re_rat ""), .RestartVerifierDriver],
          res := .ok () }

/-- `FiniteStateMachine::action_recv_re_rat`: restart the prover driver
and its timer. -/
def action_recv_re_rat (env : Env) (m : Fsm) : Step :=
  match env.proverDriver with
  | some er => { fsm := m, out := [.RestartProverDriver], res := .error (.RatError er) }
  | none =>
      { fsm := { m with prover_timer := true }, out := [.RestartProverDriver], res := .ok () }

/-- `FiniteStateMachine::action_rat_prover_failed`: cancel the prover
timer and send `Close(RAT_PROVER_FAILED)`. -/
def action_rat_prover_failed (m : Fsm) : Fsm × List Output :=
  ({ m with prover_timer := false },
   [.ScWrite (create_idscp_close .RAT_PROVER_FAILED "RatProver failed")])

/-- `FiniteStateMachine::action_rat_verifier_failed`: cancel the verifier
timer and send `Close(RAT_VERIFIER_FAILED)`. -/
def action_rat_verifier_failed (m : Fsm) : Fsm × List Output :=
  ({ m with verifier_timer := false },
   [.ScWrite (create_idscp_close .RAT_VERIFIER_FAILED "RatVerifier failed")])

/-- `FiniteStateMachine::action_rat_prover_data`: forward prover bytes
to the peer as an `IdscpRatProver` message. -/
def action_rat_prover_data (env : Env) (m : Fsm) (data : List Nat) : Step where
  fsm := m
  out := [.ScWrite (create_idscp_rat_prover data)]
  res := if env.scWriteOk then .ok () else .error (.IoError .WriteError)

/-- `FiniteStateMachine::action_rat_verifier_data`: forward verifier
bytes to the peer as an `IdscpRatVerifier` message. -/
def action_rat_verifier_data (env : Env) (m : Fsm) (data : List Nat) : Step where
  fsm := m
  out := [.ScWrite (create_idscp_rat_verifier data)]
  res := if env.scWriteOk then .ok () else .error (.IoError .WriteError)

/-- `FiniteStateMachine::action_delegate_rat_prover`: hand a received
`IdscpRatProver` message to the local verifier worker. -/
def action_delegate_rat_prover (env : Env) (m : Fsm) (data : List Nat) : Step where
  fsm := m
  out := [.ToVerifierDriver (.RawData data)]
  res := match env.verifierWrite with
    | some er => .error (.RatError er)
    | none => .ok ()

/-- `FiniteStateMachine::action_delegate_rat_verifier`: hand a received
`IdscpRatVerifier` message to the local prover worker. -/
def action_delegate_rat_verifier (env : Env) (m : Fsm) (data : List Nat) : Step where
  fsm := m
  out := [.ToProverDriver (.RawData data)]
  res := match env.proverWrite with
    | some er => .error (.RatError er)
    | none => .ok ()

/-- `FiniteStateMachine::action_recv_dat`: cancel the handshake timer,
validate the received DAT, arm the DAT timer and restart the verifier. -/
def action_recv_dat (env : Env) (m : Fsm) (token : List Nat) : Step :=
  let m := { m with handshake_timer := false }
  match env.parseUtf8 token with
  | none =>
      { fsm := m, out := [.ScWrite (create_idscp_close .NO_VALID_DAT "No valid dat")],
        res := .error .InvalidDat }
  | some remote_dat =>
  match env.verifyToken remote_dat with
  | none =>
      { fsm := m, out := [.ScWrite (create_idscp_close .NO_VALID_DAT "No valid dat")],
        res := .error .InvalidDat }
  | some _t =>
  let m := { m with dat_timer := true }
  match env.verifierDriver with
  | some er => { fsm := m, out := [.RestartVerifierDriver], res := .error (.RatError er) }
  | none =>
      { fsm := { m with verifier_timer := true }, out := [.RestartVerifierDriver],
        res := .ok () }

/-- `FiniteStateMachine::action_recv_dat_exp`: send a freshly minted DAT
and restart the prover with its timer. -/
def action_recv_dat_exp (env : Env) (m : Fsm) : Step :=
  if !env.scWriteOk then
    { fsm := m, out := [.ScWrite (create_idscp_dat env.getToken)],
      res := .error (.IoError .WriteError) }
  else
    match env.proverDriver with
    | some er =>
        { fsm := m, out := [.ScWrite (create_idscp_dat env.getToken), .RestartProverDriver],
          res := .error (.RatError er) }
    | none =>
        { fsm := { m with prover_timer := true },
          out := [.ScWrite (create_idscp_dat env.getToken), .RestartProverDriver],
          res := .ok () }

/-! The transition relation of `process_event` (`mod.rs`, lines
281-1395), one definition per source-level `current_state` arm. -/

/-- The `Closed(status)` arm: `Locked` rejects every event with
`FsmLocked`; `Unlocked` accepts only `StartHandshake`. -/
def processClosed (env : Env) (m : Fsm) (status : ClosedStateStatus) (e : FsmEvent) : Step :=
  match status with
  | .Locked => { fsm := m, out := [], res := .error .FsmLocked }
  | .Unlocked =>
    match e with
    | .FromUpper .StartHandshake =>
        let s := action_start_handshake env m
        match s.res with
        | .error er => locked_after s.fsm s.out (.error er)
        | .ok _ =>
            { fsm := { s.fsm with handshake_timer := true, current_state := .WaitForHello },
              out := s.out, res := .ok () }
    | .FromUpper .RepeatRat => { fsm := m, out := [], res := .error .FsmNotStarted }
    | .FromUpper (.Data _) => { fsm := m, out := [], res := .error .FsmNotStarted }
    | .FromUpper .Stop => { fsm := m, out := [], res := .error .FsmNotStarted }
    | _ => { fsm := m, out := [], res := .error .UnknownTransition }

/-- The `WaitForHello` arm. -/
def processWaitForHello (env : Env) (m : Fsm) (e : FsmEvent) : Step :=
  match e with
  | .FromUpper .Stop => stopped_step m
  | .FromUpper (.Data _) => { fsm := m, out := [], res := .error .NotConnected }
  | .FromUpper .RepeatRat => { fsm := m, out := [], res := .ok () }
  | .HandshakeTimeout => locked_after m handshake_timeout_handler (.ok ())
  | .FromSecureChannel .Error => locked_after m [] (.ok ())
  | .FromSecureChannel (.Close _ _) => locked_after m [] (.ok ())
  | .FromSecureChannel (.Hello dat expectedSuite supportedSuite) =>
      let s := action_recv_hello env m dat expectedSuite supportedSuite
      match s.res with
      | .error er => locked_after s.fsm s.out (.error er)
      | .ok _ =>
          { fsm := { s.fsm with current_state := .WaitForRat }, out := s.out, res := .ok () }
  | .FromSecureChannel _ => { fsm := m, out := [], res := .error .UnknownTransition }
  | _ => { fsm := m, out := [], res := .error .UnknownTransition }

/-- The `WaitForRat` arm. -/
def processWaitForRat (env : Env) (m : Fsm) (e : FsmEvent) : Step :=
  match e with
  | .FromUpper .Stop => stopped_step m
  | .FromUpper (.Data _) => { fsm := m, out := [], res := .error .NotConnected }
  | .FromUpper .RepeatRat => { fsm := m, out := [], res := .ok () }
  | .HandshakeTimeout => locked_after m handshake_timeout_handler (.ok ())
  | .DatTimeout =>
      let s := dat_timeout_handler env m
      match s.res with
      | .error er => locked_after s.fsm s.out (.error er)
      | .ok _ =>
          { fsm := { s.fsm with handshake_timer := true, current_state := .WaitForDatAndRat },
            out := s.out, res := .ok () }
  | .FromRatProver (.ControlMessage .OK) =>
      { fsm := { m with prover_timer := false, current_state := .WaitForRatVerifier },
        out := [], res := .ok () }
  | .FromRatProver (.ControlMessage .Failed) =>
      let f := action_rat_prover_failed m
      locked_after f.1 f.2 (.ok ())
  | .FromRatProver (.RawData d) =>
      let s := action_rat_prover_data env m d
      match s.res with
      | .error er => locked_after s.fsm s.out (.error er)
      | .ok _ => { fsm := s.fsm, out := s.out, res := .ok () }
  | .FromRatVerifier (.ControlMessage .OK) =>
      { fsm := { m with verifier_timer := false, rat_timer := true,
                        current_state := .WaitForRatProver },
        out := [], res := .ok () }
  | .FromRatVerifier (.ControlMessage .Failed) =>
      let f := action_rat_verifier_failed m
      locked_after f.1 f.2 (.ok ())
  | .FromRatVerifier (.RawData d) =>
      let s := action_rat_verifier_data env m d
      match s.res with
      | .error er => locked_after s.fsm s.out (.error er)
      | .ok _ => { fsm := s.fsm, out := s.out, res := .ok () }
  | .FromSecureChannel .Error => locked_after m [] (.ok ())
  | .FromSecureChannel (.Close _ _) => locked_after m [] (.ok ())
  | .FromSecureChannel .DatExp =>
      let s := action_recv_dat_exp env m
      match s.res with
      | .error er => locked_after s.fsm s.out (.error er)
      | .ok _ =>
          { fsm := { s.fsm with current_state := .WaitForRat }, out := s.out, res := .ok () }
  | .FromSecureChannel (.RatProver d) =>
      let s := action_delegate_rat_prover env m d
      match s.res with
      | .error er => locked_after s.fsm s.out (.error er)
      | .ok _ => { fsm := s.fsm, out := s.out, res := .ok () }
  | .FromSecureChannel (.RatVerifier d) =>
      let s := action_delegate_rat_verifier env m d
      match s.res with
      | .error er => locked_after s.fsm s.out (.error er)
      | .ok _ => { fsm := s.fsm, out := s.out, res := .ok () }
  | .FromSecureChannel (.Ack b) =>
      let r := action_recv_ack m b
      { fsm := r.1, out := [], res := .ok () }
  | .FromSecureChannel _ => { fsm := m, out := [], res := .error .UnknownTransition }
  | _ => { fsm := m, out := [], res := .error .UnknownTransition }

/-- The `WaitForRatProver` arm. -/
def processWaitForRatProver (env : Env) (m : Fsm) (e : FsmEvent) : Step :=
  match e with
  | .FromUpper .Stop => stopped_step m
  | .FromUpper .RepeatRat | .RatTimeout =>
      let s := action_re_rat env m
      match s.res with
      | .error er => locked_after s.fsm s.out (.error er)
      | .ok _ =>
          { fsm := { s.fsm with current_state := .WaitForRat }, out := s.out, res := .ok () }
  | .FromUpper (.Data _) => { fsm := m, out := [], res := .error .NotConnected }
  | .HandshakeTimeout => locked_after m handshake_timeout_handler (.ok ())
  | .DatTimeout =>
      let s := dat_timeout_handler env m
      match s.res with
      | .error er => locked_after s.fsm s.out (.error er)
      | .ok _ =>
          { fsm := { s.fsm with handshake_timer := true, current_state := .WaitForDatAndRat },
            out := s.out, res := .ok () }
  | .FromRatProver (.ControlMessage .OK) =>
      let m1 := { m with prover_timer := false }
      match m1.ack_flag with
      | .Inactive =>
          { fsm := { m1 with current_state := .Established }, out := [], res := .ok () }
      | .Active _ =>
          { fsm := { m1 with ack_timer := true, current_state := .WaitForAck },
            out := [], res := .ok () }
  | .FromRatProver (.ControlMessage .Failed) =>
      let f := action_rat_prover_failed m
      locked_after f.1 f.2 (.ok ())
  | .FromRatProver (.RawData d) =>
      let s := action_rat_prover_data env m d
      match s.res with
      | .error er => locked_after s.fsm s.out (.error er)
      | .ok _ => { fsm := s.fsm, out := s.out, res := .ok () }
  | .FromSecureChannel .Error => locked_after m [] (.ok ())
  | .FromSecureChannel (.Close _ _) => locked_after m [] (.ok ())
  | .FromSecureChannel .DatExp =>
      let s := action_recv_dat_exp env m
      match s.res with
      | .error er => locked_after s.fsm s.out (.error er)
      | .ok _ =>
          { fsm := { s.fsm with current_state := .WaitForRatProver },
            out := s.out, res := .ok () }
  | .FromSecureChannel (.ReRat _) =>
      let s := action_recv_re_rat env m
      match s.res with
      | .error er => locked_after s.fsm s.out (.error er)
      | .ok _ =>
          { fsm := { s.fsm with current_state := .WaitForRatProver },
            out := s.out, res := .ok () }
  | .FromSecureChannel (.RatVerifier d) =>
      let s := action_delegate_rat_verifier env m d
      match s.res with
      | .error er => locked_after s.fsm s.out (.error er)
      | .ok _ => { fsm := s.fsm, out := s.out, res := .ok () }
  | .FromSecureChannel (.Ack b) =>
      let r := action_recv_ack m b
      { fsm := r.1, out := [], res := .ok () }
  | .FromSecureChannel _ => { fsm := m, out := [], res := .error .UnknownTransition }
  | _ => { fsm := m, out := [], res := .error .UnknownTransition }

/-- The `WaitForRatVerifier` arm. -/
def processWaitForRatVerifier (env : Env) (m : Fsm) (e : FsmEvent) : Step :=
  match e with
  | .FromUpper .Stop => stopped_step m
  | .FromUpper (.Data _) => { fsm := m, out := [], res := .error .NotConnected }
  | .FromUpper .RepeatRat => { fsm := m, out := [], res := .ok () }
  | .HandshakeTimeout => locked_after m handshake_timeout_handler (.ok ())
  | .DatTimeout =>
      let s := dat_timeout_handler env m
      match s.res with
      | .error er => locked_after s.fsm s.out (.error er)
      | .ok _ =>
          { fsm := { s.fsm with handshake_timer := true,
                                current_state := .WaitForDatAndRatVerifier },
            out := s.out, res := .ok () }
  | .FromRatVerifier (.ControlMessage .OK) =>
      let m1 := { m with verifier_timer := false, rat_timer := true }
      match m1.ack_flag with
      | .Inactive =>
          { fsm := { m1 with current_state := .Established }, out := [], res := .ok () }
      | .Active _ =>
          { fsm := { m1 with ack_timer := true, current_state := .WaitForAck },
            out := [], res := .ok () }
  | .FromRatVerifier (.ControlMessage .Failed) =>
      let f := action_rat_verifier_failed m
      locked_after f.1 f.2 (.ok ())
  | .FromRatVerifier (.RawData d) =>
      let s := action_rat_verifier_data env m d
      match s.res with
      | .error er => locked_after s.fsm s.out (.error er)
      | .ok _ => { fsm := s.fsm, out := s.out, res := .ok () }
  | .FromSecureChannel .Error => locked_after m [] (.ok ())
  | .FromSecureChannel (.Close _ _) => locked_after m [] (.ok ())
  | .FromSecureChannel .DatExp =>
      let s := action_recv_dat_exp env m
      match s.res with
      | .error er => locked_after s.fsm s.out (.error er)
      | .ok _ =>
          { fsm := { s.fsm with current_state := .WaitForRat }, out := s.out, res := .ok () }
  | .FromSecureChannel (.RatProver d) =>
      let s := action_delegate_rat_prover env m d
      match s.res with
      | .error er => locked_after s.fsm s.out (.error er)
      | .ok _ => { fsm := s.fsm, out := s.out, res := .ok () }
  | .FromSecureChannel (.ReRat _) =>
      let s := action_recv_re_rat env m
      match s.res with
      | .error er => locked_after s.fsm s.out (.error er)
      | .ok _ =>
          { fsm := { s.fsm with current_state := .WaitForRat }, out := s.out, res := .ok () }
  | .FromSecureChannel (.Ack b) =>
      let r := action_recv_ack m b
      { fsm := r.1, out := [], res := .ok () }
  | .FromSecureChannel _ => { fsm := m, out := [], res := .error .UnknownTransition }
  | _ => { fsm := m, out := [], res := .error .UnknownTransition }

/-- The `WaitForDatAndRat` arm. -/
def processWaitForDatAndRat (env : Env) (m : Fsm) (e : FsmEvent) : Step :=
  match e with
  | .FromUpper .Stop => stopped_step m
  | .FromUpper (.Data _) => { fsm := m, out := [], res := .error .NotConnected }
  | .FromUpper .RepeatRat => { fsm := m, out := [], res := .ok () }
  | .HandshakeTimeout => locked_after m handshake_timeout_handler (.ok ())
  | .FromRatProver (.ControlMessage .OK) =>
      { fsm := { m with prover_timer := false,
                        current_state := .WaitForDatAndRatVerifier },
        out := [], res := .ok () }
  | .FromRatProver (.ControlMessage .Failed) =>
      let f := action_rat_prover_failed m
      locked_after f.1 f.2 (.ok ())
  | .FromRatProver (.RawData d) =>
      let s := action_rat_prover_data env m d
      match s.res with
      | .error er => locked_after s.fsm s.out (.error er)
      | .ok _ => { fsm := s.fsm, out := s.out, res := .ok () }
  | .FromSecureChannel .Error => locked_after m [] (.ok ())
  | .FromSecureChannel (.Close _ _) => locked_after m [] (.ok ())
  | .FromSecureChannel .DatExp =>
      let s := action_recv_dat_exp env m
      match s.res with
      | .error er => locked_after s.fsm s.out (.error er)
      | .ok _ =>
          { fsm := { s.fsm with current_state := .WaitForDatAndRat },
            out := s.out, res := .ok () }
  | .FromSecureChannel (.Dat token) =>
      let s := action_recv_dat env m token
      match s.res with
      | .error er => locked_after s.fsm s.out (.error er)
      | .ok _ =>
          { fsm := { s.fsm with current_state := .WaitForRat }, out := s.out, res := .ok () }
  | .FromSecureChannel (.RatVerifier d) =>
      let s := action_delegate_rat_verifier env m d
      match s.res with
      | .error er => locked_after s.fsm s.out (.error er)
      | .ok _ => { fsm := s.fsm, out := s.out, res := .ok () }
  | .FromSecureChannel (.ReRat _) =>
      let s := action_recv_re_rat env m
      match s.res with
      | .error er => locked_after s.fsm s.out (.error er)
      | .ok _ =>
          { fsm := { s.fsm with current_state := .WaitForDatAndRat },
            out := s.out, res := .ok () }
  | .FromSecureChannel (.Ack b) =>
      let r := action_recv_ack m b
      { fsm := r.1, out := [], res := .ok () }
  | .FromSecureChannel _ => { fsm := m, out := [], res := .error .UnknownTransition }
  | _ => { fsm := m, out := [], res := .error .UnknownTransition }

/-- The `WaitForDatAndRatVerifier` arm. -/
def processWaitForDatAndRatVerifier (env : Env) (m : Fsm) (e : FsmEvent) : Step :=
  match e with
  | .FromUpper .Stop => stopped_step m
  | .FromUpper (.Data _) => { fsm := m, out := [], res := .error .NotConnected }
  | .FromUpper .RepeatRat => { fsm := m, out := [], res := .ok () }
  | .HandshakeTimeout => locked_after m handshake_timeout_handler (.ok ())
  | .FromSecureChannel .Error => locked_after m [] (.ok ())
  | .FromSecureChannel (.Close _ _) => locked_after m [] (.ok ())
  | .FromSecureChannel .DatExp =>
      let s := action_recv_dat_exp env m
      match s.res with
      | .error er => locked_after s.fsm s.out (.error er)
      | .ok _ =>
          { fsm := { s.fsm with current_state := .WaitForDatAndRat },
            out := s.out, res := .ok () }
  | .FromSecureChannel (.Dat token) =>
      let s := action_recv_dat env m token
      match s.res with
      | .error er => locked_after s.fsm s.out (.error er)
      | .ok _ =>
          { fsm := { s.fsm with current_state := .WaitForRatVerifier },
            out := s.out, res := .ok () }
  | .FromSecureChannel (.ReRat _) =>
      let s := action_recv_re_rat env m
      match s.res with
      | .error er => locked_after s.fsm s.out (.error er)
      | .ok _ =>
          { fsm := { s.fsm with current_state := .WaitForDatAndRat },
            out := s.out, res := .ok () }
  | .FromSecureChannel (.Ack b) =>
      let r := action_recv_ack m b
      { fsm := r.1, out := [], res := .ok () }
  | .FromSecureChannel _ => { fsm := m, out := [], res := .error .UnknownTransition }
  | _ => { fsm := m, out := [], res := .error .UnknownTransition }

/-- The `WaitForAck` arm. -/
def processWaitForAck (env : Env) (m : Fsm) (e : FsmEvent) : Step :=
  match e with
  | .FromUpper .Stop => stopped_step m
  | .FromUpper .RepeatRat | .RatTimeout =>
      let s := action_re_rat env m
      match s.res with
      | .error er => locked_after s.fsm s.out (.error er)
      | .ok _ =>
          { fsm := { s.fsm with ack_timer := false, current_state := .WaitForRatVerifier },
            out := s.out, res := .ok () }
  | .FromUpper (.Data _) => { fsm := m, out := [], res := .error .WouldBlock }
  | .DatTimeout =>
      let s := dat_timeout_handler env m
      match s.res with
      | .error er => locked_after s.fsm s.out (.error er)
      | .ok _ =>
          { fsm := { s.fsm with ack_timer := false, handshake_timer := true,
                                current_state := .WaitForDatAndRatVerifier },
            out := s.out, res := .ok () }
  | .AckTimeout =>
      match m.ack_flag with
      | .Inactive => { fsm := m, out := [], res := .error .IdscpDataNotCached }
      | .Active d =>
          let s := action_send_data env m d
          match s.res with
          | .error er => locked_after s.fsm s.out (.error er)
          | .ok _ => { fsm := { s.fsm with ack_timer := true }, out := s.out, res := .ok () }
  | .FromSecureChannel .Error => locked_after m [] (.ok ())
  | .FromSecureChannel (.Close _ _) => locked_after m [] (.ok ())
  | .FromSecureChannel .DatExp =>
      let s := action_recv_dat_exp env m
      match s.res with
      | .error er => locked_after s.fsm s.out (.error er)
      | .ok _ =>
          { fsm := { s.fsm with ack_timer := false, current_state := .WaitForRatProver },
            out := s.out, res := .ok () }
  | .FromSecureChannel (.ReRat _) =>
      let s := action_recv_re_rat env m
      match s.res with
      | .error er => locked_after s.fsm s.out (.error er)
      | .ok _ =>
          { fsm := { s.fsm with ack_timer := false, current_state := .WaitForRatProver },
            out := s.out, res := .ok () }
  | .FromSecureChannel (.Data d b) =>
      let r := action_recv_data m d b
      { fsm := r.1, out := r.2, res := .ok () }
  | .FromSecureChannel (.Ack b) =>
      let r := action_recv_ack m b
      match r.2 with
      | .ok _ =>
          { fsm := { r.1 with current_state := .Established }, out := [], res := .ok () }
      | .error _ => { fsm := r.1, out := [], res := .ok () }
  | .FromSecureChannel _ => { fsm := m, out := [], res := .error .UnknownTransition }
  | _ => { fsm := m, out := [], res := .error .UnknownTransition }

/-- The `Established` arm. -/
def processEstablished (env : Env) (m : Fsm) (e : FsmEvent) : Step :=
  match e with
  | .FromUpper .Stop => stopped_step m
  | .FromUpper .RepeatRat | .RatTimeout =>
      let s := action_re_rat env m
      match s.res with
      | .error er => locked_after s.fsm s.out (.error er)
      | .ok _ =>
          { fsm := { s.fsm with current_state := .WaitForRatVerifier },
            out := s.out, res := .ok () }
  | .FromUpper (.Data msg) =>
      let s := action_send_data env m msg
      match s.res with
      | .error er => locked_after s.fsm s.out (.error er)
      | .ok _ =>
          { fsm := { s.fsm with ack_flag := .Active msg, ack_timer := true,
                                current_state := .WaitForAck },
            out := s.out, res := .ok () }
  | .DatTimeout =>
      let s := dat_timeout_handler env m
      match s.res with
      | .error er => locked_after s.fsm s.out (.error er)
      | .ok _ =>
          { fsm := { s.fsm with handshake_timer := true,
                                current_state := .WaitForDatAndRatVerifier },
            out := s.out, res := .ok () }
  | .FromSecureChannel .Error => locked_after m [] (.ok ())
  | .FromSecureChannel (.Close _ _) => locked_after m [] (.ok ())
  | .FromSecureChannel .DatExp =>
      let s := action_recv_dat_exp env m
      match s.res with
      | .error er => locked_after s.fsm s.out (.error er)
      | .ok _ =>
          { fsm := { s.fsm with current_state := .WaitForRatProver },
            out := s.out, res := .ok () }
  | .FromSecureChannel (.ReRat _) =>
      let s := action_recv_re_rat env m
      match s.res with
      | .error er => locked_after s.fsm s.out (.error er)
      | .ok _ =>
          { fsm := { s.fsm with current_state := .WaitForRatProver },
            out := s.out, res := .ok () }
  | .FromSecureChannel (.Data d b) =>
      let r := action_recv_data m d b
      { fsm := r.1, out := r.2, res := .ok () }
  | .FromSecureChannel _ => { fsm := m, out := [], res := .error .UnknownTransition }
  | _ => { fsm := m, out := [], res := .error .UnknownTransition }

/-- Dispatch on `current_state`, mirroring the outer `match` of
`process_event`. -/
def dispatchEvent (env : Env) (m : Fsm) (e : FsmEvent) : Step :=
  match m.current_state with
  | .Closed status => processClosed env m status e
  | .WaitForHello => processWaitForHello env m e
  | .WaitForRat => processWaitForRat env m e
  | .WaitForRatProver => processWaitForRatProver env m e
  | .WaitForRatVerifier => processWaitForRatVerifier env m e
  | .WaitForDatAndRat => processWaitForDatAndRat env m e
  | .WaitForDatAndRatVerifier => processWaitForDatAndRatVerifier env m e
  | .WaitForAck => processWaitForAck env m e
  | .Established => processEstablished env m e

/-- The handshake-result publication that closes every `process_event`
call: while no result has been published, reaching `Established`
publishes `Successful` and reaching `Closed(Locked)` publishes `Failed`. -/
def publishHandshakeResult (m : Fsm) : Fsm :=
  if m.handshake_result_available then m
  else
    match m.current_state with
    | .Established =>
        { m with handshake_result := .Successful, handshake_result_available := true }
    | .Closed .Locked =>
        { m with handshake_result := .Failed, handshake_result_available := true }
    | _ => m

/-- `FiniteStateMachine::process_event`: dispatch on the current state,
then publish the handshake result if due. -/
def processEvent (env : Env) (m : Fsm) (e : FsmEvent) : Step :=
  let s := dispatchEvent env m e
  { s with fsm := publishHandshakeResult s.fsm }

/-- Fold a list of events through `processEvent` under a fixed
environment. -/
def runEvents (env : Env) (m : Fsm) : List FsmEvent → Fsm
  | [] => m
  | e :: es => runEvents env (processEvent env m e).fsm es

/-- States of the FSM reachable from the freshly created machine through
`process_event` calls. -/
inductive Reachable (cfg : AttestationConfig) : Fsm → Prop where
  | init : Reachable cfg (initialFsm cfg)
  | step (env : Env) (e : FsmEvent) {m : Fsm} :
      Reachable cfg m → Reachable cfg (processEvent env m e).fsm

/-! Derived notions used to state the claims. -/

/-- Test whether the ack flag is active. -/
def AckFlag.isActive : AckFlag → Bool
  | .Active _ => true
  | .Inactive => false

/-- An event is an ack that `action_recv_ack` consumes on `m`: a peer
`Ack` carrying the current send bit while the ack flag is active. -/
def ackConsumed (m : Fsm) : FsmEvent → Bool
  | .FromSecureChannel (.Ack b) =>
      m.ack_flag.isActive && (b == m.next_send_alternating_bit.bit)
  | _ => false

/-- An event is a peer `Data` message carrying the currently expected
alternating bit. -/
def dataMatched (m : Fsm) : FsmEvent → Bool
  | .FromSecureChannel (.Data _ b) => b == m.expected_alternating_bit.bit
  | _ => false

/-- States whose `process_event` arm handles a peer `Ack` (calls
`action_recv_ack`). -/
def isAckProcessingState : FsmState → Bool
  | .WaitForRat | .WaitForRatProver | .WaitForRatVerifier
  | .WaitForDatAndRat | .WaitForDatAndRatVerifier | .WaitForAck => true
  | _ => false

/-- States whose `process_event` arm handles a peer `Data` (calls
`action_recv_data`). -/
def isDataProcessingState : FsmState → Bool
  | .WaitForAck | .Established => true
  | _ => false

/-- In the states that precede any pending application data
(`Established`, `WaitForHello`, `Closed(Unlocked)`) the ack flag is
inactive. -/
def ackInvariant (m : Fsm) : Prop :=
  m.current_state = .Established ∨ m.current_state = .WaitForHello ∨
      m.current_state = .Closed .Unlocked →
    m.ack_flag = .Inactive

theorem AlternatingBit.alternate_ne (a : AlternatingBit) : a.alternate ≠ a := by
  cases a with
  | mk b => cases b <;> simp [AlternatingBit.alternate]

theorem action_recv_ack_eq (m : Fsm) (b : Bool) :
    action_recv_ack m b =
      (if ackConsumed m (.FromSecureChannel (.Ack b)) then
        ({ m with ack_flag := .Inactive, ack_timer := false,
                  next_send_alternating_bit := m.next_send_alternating_bit.alternate },
         .ok ())
      else (m, .error ⟨⟩)) := by
  rcases hb : m.next_send_alternating_bit with ⟨c⟩
  cases hf : m.ack_flag with
  | Active p =>
      by_cases hbc : b = c <;>
        simp [action_recv_ack, ackConsumed, AckFlag.isActive, hf, hb, hbc,
          AlternatingBit.from_bool]
  | Inactive =>
      simp [action_recv_ack, ackConsumed, AckFlag.isActive, hf,
        AlternatingBit.from_bool]

theorem action_recv_hello_fields (env : Env) (m : Fsm) (dat : Option (List Nat))
    (es ss : List String) :
    (action_recv_hello env m dat es ss).fsm.handshake_result = m.handshake_result
    ∧ (action_recv_hello env m dat es ss).fsm.handshake_result_available
        = m.handshake_result_available
    ∧ (action_recv_hello env m dat es ss).fsm.next_send_alternating_bit
        = m.next_send_alternating_bit
    ∧ (action_recv_hello env m dat es ss).fsm.expected_alternating_bit
        = m.expected_alternating_bit
    ∧ (action_recv_hello env m dat es ss).fsm.ack_flag = m.ack_flag
    ∧ (action_recv_hello env m dat es ss).fsm.current_state = m.current_state := by
  simp only [action_recv_hello]
  repeat' split
  all_goals simp

theorem action_recv_dat_fields (env : Env) (m : Fsm) (token : List Nat) :
    (action_recv_dat env m token).fsm.handshake_result = m.handshake_result
    ∧ (action_recv_dat env m token).fsm.handshake_result_available
        = m.handshake_result_available
    ∧ (action_recv_dat env m token).fsm.next_send_alternating_bit
        = m.next_send_alternating_bit
    ∧ (action_recv_dat env m token).fsm.expected_alternating_bit
        = m.expected_alternating_bit
    ∧ (action_recv_dat env m token).fsm.ack_flag = m.ack_flag
    ∧ (action_recv_dat env m token).fsm.current_state = m.current_state := by
  simp only [action_recv_dat]
  repeat' split
  all_goals simp

theorem processClosed_facts (env : Env) (m : Fsm) (status : ClosedStateStatus)
    (e : FsmEvent) (hs : m.current_state = .Closed status) :
    (processClosed env m status e).fsm.handshake_result = m.handshake_result
    ∧ (processClosed env m status e).fsm.handshake_result_available
        = m.handshake_result_available
    ∧ (processClosed env m status e).fsm.next_send_alternating_bit
        = m.next_send_alternating_bit
    ∧ (processClosed env m status e).fsm.expected_alternating_bit
        = m.expected_alternating_bit
    ∧ (ackInvariant m → ackInvariant (processClosed env m status e).fsm) := by
  cases status with
  | Locked => simp [processClosed, ackInvariant, hs]
  | Unlocked =>
      cases e with
      | FromUpper u =>
          cases u with
          | StartHandshake =>
              cases hw : env.scWriteOk <;>
                simp [processClosed, action_start_handshake, locked_after, cleanup,
                  hw, ackInvariant, hs]
          | _ => simp [processClosed, ackInvariant, hs]
      | _ => simp [processClosed, ackInvariant, hs]

theorem processWaitForHello_facts (env : Env) (m : Fsm) (e : FsmEvent)
    (hs : m.current_state = .WaitForHello) :
    (processWaitForHello env m e).fsm.handshake_result = m.handshake_result
    ∧ (processWaitForHello env m e).fsm.handshake_result_available
        = m.handshake_result_available
    ∧ (processWaitForHello env m e).fsm.next_send_alternating_bit
        = m.next_send_alternating_bit
    ∧ (processWaitForHello env m e).fsm.expected_alternating_bit
        = m.expected_alternating_bit
    ∧ (ackInvariant m → ackInvariant (processWaitForHello env m e).fsm) := by
  cases e with
  | FromUpper u =>
      cases u <;>
        simp [processWaitForHello, stopped_step, cleanup, ackInvariant, hs]
  | FromSecureChannel se =>
      cases se with
      | Hello dat es ss =>
          obtain ⟨h1, h2, h3, h4, h5, h6⟩ := action_recv_hello_fields env m dat es ss
          simp only [processWaitForHello]
          split <;>
            simp [locked_after, cleanup, h1, h2, h3, h4, h5, h6, ackInvariant, hs]
      | _ =>
          simp [processWaitForHello, locked_after, cleanup, ackInvariant, hs]
  | HandshakeTimeout =>
      simp [processWaitForHello, locked_after, cleanup, handshake_timeout_handler,
        ackInvariant, hs]
  | _ => simp [processWaitForHello, ackInvariant, hs]

theorem processWaitForRat_facts (env : Env) (m : Fsm) (e : FsmEvent)
    (hs : m.current_state = .WaitForRat) :
    (processWaitForRat env m e).fsm.handshake_result = m.handshake_result
    ∧ (processWaitForRat env m e).fsm.handshake_result_available
        = m.handshake_result_available
    ∧ (processWaitForRat env m e).fsm.next_send_alternating_bit
        = (if ackConsumed m e then m.next_send_alternating_bit.alternate
           else m.next_send_alternating_bit)
    ∧ (processWaitForRat env m e).fsm.expected_alternating_bit
        = m.expected_alternating_bit
    ∧ (ackInvariant m → ackInvariant (processWaitForRat env m e).fsm) := by
  cases e with
  | FromUpper u =>
      cases u <;>
        simp [processWaitForRat, stopped_step, cleanup, ackConsumed, ackInvariant, hs]
  | FromRatProver msg =>
      rcases msg with icm | d
      · cases icm <;>
          simp [processWaitForRat, locked_after, cleanup, action_rat_prover_failed,
            ackConsumed, ackInvariant]
      · cases hw : env.scWriteOk <;>
          simp [processWaitForRat, locked_after, cleanup, action_rat_prover_data,
            hw, ackConsumed, ackInvariant, hs]
  | FromRatVerifier msg =>
      rcases msg with icm | d
      · cases icm <;>
          simp [processWaitForRat, locked_after, cleanup, action_rat_verifier_failed,
            ackConsumed, ackInvariant]
      · cases hw : env.scWriteOk <;>
          simp [processWaitForRat, locked_after, cleanup, action_rat_verifier_data,
            hw, ackConsumed, ackInvariant, hs]
  | FromSecureChannel se =>
      cases se with
      | Ack b =>
          simp only [processWaitForRat, action_recv_ack_eq]
          split <;> simp [ackInvariant, hs]
      | Error =>
          simp [processWaitForRat, locked_after, cleanup, ackConsumed, ackInvariant]
      | Close c msg =>
          simp [processWaitForRat, locked_after, cleanup, ackConsumed, ackInvariant]
      | DatExp =>
          cases hw : env.scWriteOk <;>
            cases hp : env.proverDriver <;>
              simp [processWaitForRat, locked_after, cleanup, action_recv_dat_exp,
                hw, hp, ackConsumed, ackInvariant]
      | RatProver d =>
          cases hv : env.verifierWrite <;>
            simp [processWaitForRat, locked_after, cleanup, action_delegate_rat_prover,
              hv, ackConsumed, ackInvariant, hs]
      | RatVerifier d =>
          cases hp : env.proverWrite <;>
            simp [processWaitForRat, locked_after, cleanup, action_delegate_rat_verifier,
              hp, ackConsumed, ackInvariant, hs]
      | _ =>
          simp [processWaitForRat, ackConsumed, ackInvariant, hs]
  | DatTimeout =>
      cases hw : env.scWriteOk <;>
        simp [processWaitForRat, locked_after, cleanup, dat_timeout_handler,
          hw, ackConsumed, ackInvariant]
  | RatTimeout => simp [processWaitForRat, ackConsumed, ackInvariant, hs]
  | HandshakeTimeout =>
      simp [processWaitForRat, locked_after, cleanup, handshake_timeout_handler,
        ackConsumed, ackInvariant]
  | AckTimeout => simp [processWaitForRat, ackConsumed, ackInvariant, hs]

theorem processWaitForRatProver_facts (env : Env) (m : Fsm) (e : FsmEvent)
    (hs : m.current_state = .WaitForRatProver) :
    (processWaitForRatProver env m e).fsm.handshake_result = m.handshake_result
    ∧ (processWaitForRatProver env m e).fsm.handshake_result_available
        = m.handshake_result_available
    ∧ (processWaitForRatProver env m e).fsm.next_send_alternating_bit
        = (if ackConsumed m e then m.next_send_alternating_bit.alternate
           else m.next_send_alternating_bit)
    ∧ (processWaitForRatProver env m e).fsm.expected_alternating_bit
        = m.expected_alternating_bit
    ∧ (ackInvariant m → ackInvariant (processWaitForRatProver env m e).fsm) := by
  cases e with
  | FromUpper u =>
      cases u with
      | RepeatRat =>
          cases hw : env.scWriteOk <;>
            cases hv : env.verifierDriver <;>
              simp [processWaitForRatProver, action_re_rat, locked_after, cleanup,
                hw, hv, ackConsumed, ackInvariant]
      | _ =>
          simp [processWaitForRatProver, stopped_step, cleanup, ackConsumed,
            ackInvariant, hs]
  | RatTimeout =>
      cases hw : env.scWriteOk <;>
        cases hv : env.verifierDriver <;>
          simp [processWaitForRatProver, action_re_rat, locked_after, cleanup,
            hw, hv, ackConsumed, ackInvariant]
  | FromRatProver msg =>
      rcases msg with icm | d
      · cases icm with
        | OK =>
            cases hf : m.ack_flag <;>
              simp [processWaitForRatProver, hf, ackConsumed, ackInvariant]
        | Failed =>
            simp [processWaitForRatProver, locked_after, cleanup,
              action_rat_prover_failed, ackConsumed, ackInvariant]
      · cases hw : env.scWriteOk <;>
          simp [processWaitForRatProver, locked_after, cleanup,
            action_rat_prover_data, hw, ackConsumed, ackInvariant, hs]
  | FromSecureChannel se =>
      cases se with
      | Ack b =>
          simp only [processWaitForRatProver, action_recv_ack_eq]
          split <;> simp [ackInvariant, hs]
      | Error =>
          simp [processWaitForRatProver, locked_after, cleanup, ackConsumed,
            ackInvariant]
      | Close c msg =>
          simp [processWaitForRatProver, locked_after, cleanup, ackConsumed,
            ackInvariant]
      | DatExp =>
          cases hw : env.scWriteOk <;>
            cases hp : env.proverDriver <;>
              simp [processWaitForRatProver, locked_after, cleanup,
                action_recv_dat_exp, hw, hp, ackConsumed, ackInvariant]
      | ReRat c =>
          cases hp : env.proverDriver <;>
            simp [processWaitForRatProver, locked_after, cleanup,
              action_recv_re_rat, hp, ackConsumed, ackInvariant]
      | RatVerifier d =>
          cases hp : env.proverWrite <;>
            simp [processWaitForRatProver, locked_after, cleanup,
              action_delegate_rat_verifier, hp, ackConsumed, ackInvariant, hs]
      | _ =>
          simp [processWaitForRatProver, ackConsumed, ackInvariant, hs]
  | DatTimeout =>
      cases hw : env.scWriteOk <;>
        simp [processWaitForRatProver, locked_after, cleanup, dat_timeout_handler,
          hw, ackConsumed, ackInvariant]
  | HandshakeTimeout =>
      simp [processWaitForRatProver, locked_after, cleanup,
        handshake_timeout_handler, ackConsumed, ackInvariant]
  | _ => simp [processWaitForRatProver, ackConsumed, ackInvariant, hs]

theorem processWaitForRatVerifier_facts (env : Env) (m : Fsm) (e : FsmEvent)
    (hs : m.current_state = .WaitForRatVerifier) :
    (processWaitForRatVerifier env m e).fsm.handshake_result = m.handshake_result
    ∧ (processWaitForRatVerifier env m e).fsm.handshake_result_available
        = m.handshake_result_available
    ∧ (processWaitForRatVerifier env m e).fsm.next_send_alternating_bit
        = (if ackConsumed m e then m.next_send_alternating_bit.alternate
           else m.next_send_alternating_bit)
    ∧ (processWaitForRatVerifier env m e).fsm.expected_alternating_bit
        = m.expected_alternating_bit
    ∧ (ackInvariant m → ackInvariant (processWaitForRatVerifier env m e).fsm) := by
  cases e with
  | FromUpper u =>
      cases u <;>
        simp [processWaitForRatVerifier, stopped_step, cleanup, ackConsumed,
          ackInvariant, hs]
  | FromRatVerifier msg =>
      rcases msg with icm | d
      · cases icm with
        | OK =>
            cases hf : m.ack_flag <;>
              simp [processWaitForRatVerifier, hf, ackConsumed, ackInvariant]
        | Failed =>
            simp [processWaitForRatVerifier, locked_after, cleanup,
              action_rat_verifier_failed, ackConsumed, ackInvariant]
      · cases hw : env.scWriteOk <;>
          simp [processWaitForRatVerifier, locked_after, cleanup,
            action_rat_verifier_data, hw, ackConsumed, ackInvariant, hs]
  | FromSecureChannel se =>
      cases se with
      | Ack b =>
          simp only [processWaitForRatVerifier, action_recv_ack_eq]
          split <;> simp [ackInvariant, hs]
      | Error =>
          simp [processWaitForRatVerifier, locked_after, cleanup, ackConsumed,
            ackInvariant]
      | Close c msg =>
          simp [processWaitForRatVerifier, locked_after, cleanup, ackConsumed,
            ackInvariant]
      | DatExp =>
          cases hw : env.scWriteOk <;>
            cases hp : env.proverDriver <;>
              simp [processWaitForRatVerifier, locked_after, cleanup,
                action_recv_dat_exp, hw, hp, ackConsumed, ackInvariant]
      | ReRat c =>
          cases hp : env.proverDriver <;>
            simp [processWaitForRatVerifier, locked_after, cleanup,
              action_recv_re_rat, hp, ackConsumed, ackInvariant]
      | RatProver d =>
          cases hv : env.verifierWrite <;>
            simp [processWaitForRatVerifier, locked_after, cleanup,
              action_delegate_rat_prover, hv, ackConsumed, ackInvariant, hs]
      | _ =>
          simp [processWaitForRatVerifier, ackConsumed, ackInvariant, hs]
  | DatTimeout =>
      cases hw : env.scWriteOk <;>
        simp [processWaitForRatVerifier, locked_after, cleanup,
          dat_timeout_handler, hw, ackConsumed, ackInvariant]
  | HandshakeTimeout =>
      simp [processWaitForRatVerifier, locked_after, cleanup,
        handshake_timeout_handler, ackConsumed, ackInvariant]
  | _ => simp [processWaitForRatVerifier, ackConsumed, ackInvariant, hs]

theorem processWaitForDatAndRat_facts (env : Env) (m : Fsm) (e : FsmEvent)
    (hs : m.current_state = .WaitForDatAndRat) :
    (processWaitForDatAndRat env m e).fsm.handshake_result = m.handshake_result
    ∧ (processWaitForDatAndRat env m e).fsm.handshake_result_available
        = m.handshake_result_available
    ∧ (processWaitForDatAndRat env m e).fsm.next_send_alternating_bit
        = (if ackConsumed m e then m.next_send_alternating_bit.alternate
           else m.next_send_alternating_bit)
    ∧ (processWaitForDatAndRat env m e).fsm.expected_alternating_bit
        = m.expected_alternating_bit
    ∧ (ackInvariant m → ackInvariant (processWaitForDatAndRat env m e).fsm) := by
  cases e with
  | FromUpper u =>
      cases u <;>
        simp [processWaitForDatAndRat, stopped_step, cleanup, ackConsumed,
          ackInvariant, hs]
  | FromRatProver msg =>
      rcases msg with icm | d
      · cases icm <;>
          simp [processWaitForDatAndRat, locked_after, cleanup,
            action_rat_prover_failed, ackConsumed, ackInvariant]
      · cases hw : env.scWriteOk <;>
          simp [processWaitForDatAndRat, locked_after, cleanup,
            action_rat_prover_data, hw, ackConsumed, ackInvariant, hs]
  | FromSecureChannel se =>
      cases se with
      | Ack b =>
          simp only [processWaitForDatAndRat, action_recv_ack_eq]
          split <;> simp [ackInvariant, hs]
      | Error =>
          simp [processWaitForDatAndRat, locked_after, cleanup, ackConsumed,
            ackInvariant]
      | Close c msg =>
          simp [processWaitForDatAndRat, locked_after, cleanup, ackConsumed,
            ackInvariant]
      | DatExp =>
          cases hw : env.scWriteOk <;>
            cases hp : env.proverDriver <;>
              simp [processWaitForDatAndRat, locked_after, cleanup,
                action_recv_dat_exp, hw, hp, ackConsumed, ackInvariant]
      | Dat token =>
          obtain ⟨h1, h2, h3, h4, h5, h6⟩ := action_recv_dat_fields env m token
          simp only [processWaitForDatAndRat]
          split <;>
            simp [locked_after, cleanup, h1, h2, h3, h4, h5, h6, ackConsumed,
              ackInvariant]
      | ReRat c =>
          cases hp : env.proverDriver <;>
            simp [processWaitForDatAndRat, locked_after, cleanup,
              action_recv_re_rat, hp, ackConsumed, ackInvariant]
      | RatVerifier d =>
          cases hp : env.proverWrite <;>
            simp [processWaitForDatAndRat, locked_after, cleanup,
              action_delegate_rat_verifier, hp, ackConsumed, ackInvariant, hs]
      | _ =>
          simp [processWaitForDatAndRat, ackConsumed, ackInvariant, hs]
  | HandshakeTimeout =>
      simp [processWaitForDatAndRat, locked_after, cleanup,
        handshake_timeout_handler, ackConsumed, ackInvariant]
  | _ => simp [processWaitForDatAndRat, ackConsumed, ackInvariant, hs]

theorem processWaitForDatAndRatVerifier_facts (env : Env) (m : Fsm) (e : FsmEvent)
    (hs : m.current_state = .WaitForDatAndRatVerifier) :
    (processWaitForDatAndRatVerifier env m e).fsm.handshake_result = m.handshake_result
    ∧ (processWaitForDatAndRatVerifier env m e).fsm.handshake_result_available
        = m.handshake_result_available
    ∧ (processWaitForDatAndRatVerifier env m e).fsm.next_send_alternating_bit
        = (if ackConsumed m e then m.next_send_alternating_bit.alternate
           else m.next_send_alternating_bit)
    ∧ (processWaitForDatAndRatVerifier env m e).fsm.expected_alternating_bit
        = m.expected_alternating_bit
    ∧ (ackInvariant m → ackInvariant (processWaitForDatAndRatVerifier env m e).fsm) := by
  cases e with
  | FromUpper u =>
      cases u <;>
        simp [processWaitForDatAndRatVerifier, stopped_step, cleanup, ackConsumed,
          ackInvariant, hs]
  | FromSecureChannel se =>
      cases se with
      | Ack b =>
          simp only [processWaitForDatAndRatVerifier, action_recv_ack_eq]
          split <;> simp [ackInvariant, hs]
      | Error =>
          simp [processWaitForDatAndRatVerifier, locked_after, cleanup,
            ackConsumed, ackInvariant]
      | Close c msg =>
          simp [processWaitForDatAndRatVerifier, locked_after, cleanup,
            ackConsumed, ackInvariant]
      | DatExp =>
          cases hw : env.scWriteOk <;>
            cases hp : env.proverDriver <;>
              simp [processWaitForDatAndRatVerifier, locked_after, cleanup,
                action_recv_dat_exp, hw, hp, ackConsumed, ackInvariant]
      | Dat token =>
          obtain ⟨h1, h2, h3, h4, h5, h6⟩ := action_recv_dat_fields env m token
          simp only [processWaitForDatAndRatVerifier]
          split <;>
            simp [locked_after, cleanup, h1, h2, h3, h4, h5, h6, ackConsumed,
              ackInvariant]
      | ReRat c =>
          cases hp : env.proverDriver <;>
            simp [processWaitForDatAndRatVerifier, locked_after, cleanup,
              action_recv_re_rat, hp, ackConsumed, ackInvariant]
      | _ =>
          simp [processWaitForDatAndRatVerifier, ackConsumed, ackInvariant, hs]
  | HandshakeTimeout =>
      simp [processWaitForDatAndRatVerifier, locked_after, cleanup,
        handshake_timeout_handler, ackConsumed, ackInvariant]
  | _ => simp [processWaitForDatAndRatVerifier, ackConsumed, ackInvariant, hs]

theorem processWaitForAck_facts (env : Env) (m : Fsm) (e : FsmEvent)
    (hs : m.current_state = .WaitForAck) :
    (processWaitForAck env m e).fsm.handshake_result = m.handshake_result
    ∧ (processWaitForAck env m e).fsm.handshake_result_available
        = m.handshake_result_available
    ∧ (processWaitForAck env m e).fsm.next_send_alternating_bit
        = (if ackConsumed m e then m.next_send_alternating_bit.alternate
           else m.next_send_alternating_bit)
    ∧ (processWaitForAck env m e).fsm.expected_alternating_bit
        = (if dataMatched m e then m.expected_alternating_bit.alternate
           else m.expected_alternating_bit)
    ∧ (ackInvariant m → ackInvariant (processWaitForAck env m e).fsm) := by
  cases e with
  | FromUpper u =>
      cases u with
      | RepeatRat =>
          cases hw : env.scWriteOk <;>
            cases hv : env.verifierDriver <;>
              simp [processWaitForAck, action_re_rat, locked_after, cleanup,
                hw, hv, ackConsumed, dataMatched, ackInvariant]
      | _ =>
          simp [processWaitForAck, stopped_step, cleanup, ackConsumed,
            dataMatched, ackInvariant, hs]
  | RatTimeout =>
      cases hw : env.scWriteOk <;>
        cases hv : env.verifierDriver <;>
          simp [processWaitForAck, action_re_rat, locked_after, cleanup,
            hw, hv, ackConsumed, dataMatched, ackInvariant]
  | DatTimeout =>
      cases hw : env.scWriteOk <;>
        simp [processWaitForAck, locked_after, cleanup, dat_timeout_handler,
          hw, ackConsumed, dataMatched, ackInvariant]
  | AckTimeout =>
      cases hf : m.ack_flag with
      | Inactive =>
          simp [processWaitForAck, hf, ackConsumed, dataMatched, ackInvariant, hs]
      | Active d =>
          cases hw : env.scWriteOk <;>
            simp [processWaitForAck, hf, hw, action_send_data, locked_after,
              cleanup, ackConsumed, dataMatched, ackInvariant, hs]
  | FromSecureChannel se =>
      cases se with
      | Ack b =>
          simp only [processWaitForAck, action_recv_ack_eq]
          by_cases hc : ackConsumed m (.FromSecureChannel (.Ack b)) = true <;>
            simp [hc, ackInvariant, dataMatched, hs]
      | Data d b =>
          rcases he : m.expected_alternating_bit with ⟨c⟩
          by_cases hbc : b = c <;>
            simp [processWaitForAck, action_recv_data, AlternatingBit.from_bool,
              AlternatingBit.alternate, he, hbc, ackConsumed, dataMatched,
              ackInvariant, hs]
      | Error =>
          simp [processWaitForAck, locked_after, cleanup, ackConsumed,
            dataMatched, ackInvariant]
      | Close c msg =>
          simp [processWaitForAck, locked_after, cleanup, ackConsumed,
            dataMatched, ackInvariant]
      | DatExp =>
          cases hw : env.scWriteOk <;>
            cases hp : env.proverDriver <;>
              simp [processWaitForAck, locked_after, cleanup, action_recv_dat_exp,
                hw, hp, ackConsumed, dataMatched, ackInvariant]
      | ReRat c =>
          cases hp : env.proverDriver <;>
            simp [processWaitForAck, locked_after, cleanup, action_recv_re_rat,
              hp, ackConsumed, dataMatched, ackInvariant]
      | _ =>
          simp [processWaitForAck, ackConsumed, dataMatched, ackInvariant, hs]
  | HandshakeTimeout =>
      simp [processWaitForAck, ackConsumed, dataMatched, ackInvariant, hs]
  | _ => simp [processWaitForAck, ackConsumed, dataMatched, ackInvariant, hs]

theorem processEstablished_facts (env : Env) (m : Fsm) (e : FsmEvent)
    (hs : m.current_state = .Established) :
    (processEstablished env m e).fsm.handshake_result = m.handshake_result
    ∧ (processEstablished env m e).fsm.handshake_result_available
        = m.handshake_result_available
    ∧ (processEstablished env m e).fsm.next_send_alternating_bit
        = m.next_send_alternating_bit
    ∧ (processEstablished env m e).fsm.expected_alternating_bit
        = (if dataMatched m e then m.expected_alternating_bit.alternate
           else m.expected_alternating_bit)
    ∧ (ackInvariant m → ackInvariant (processEstablished env m e).fsm) := by
  cases e with
  | FromUpper u =>
      cases u with
      | RepeatRat =>
          cases hw : env.scWriteOk <;>
            cases hv : env.verifierDriver <;>
              simp [processEstablished, action_re_rat, locked_after, cleanup,
                hw, hv, dataMatched, ackInvariant]
      | Data msg =>
          cases hw : env.scWriteOk <;>
            simp [processEstablished, action_send_data, locked_after, cleanup,
              hw, dataMatched, ackInvariant]
      | _ =>
          simp [processEstablished, stopped_step, cleanup, dataMatched,
            ackInvariant, hs]
  | RatTimeout =>
      cases hw : env.scWriteOk <;>
        cases hv : env.verifierDriver <;>
          simp [processEstablished, action_re_rat, locked_after, cleanup,
            hw, hv, dataMatched, ackInvariant]
  | DatTimeout =>
      cases hw : env.scWriteOk <;>
        simp [processEstablished, locked_after, cleanup, dat_timeout_handler,
          hw, dataMatched, ackInvariant]
  | FromSecureChannel se =>
      cases se with
      | Data d b =>
          rcases he : m.expected_alternating_bit with ⟨c⟩
          by_cases hbc : b = c <;>
            simp [processEstablished, action_recv_data, AlternatingBit.from_bool,
              AlternatingBit.alternate, he, hbc, dataMatched, ackInvariant, hs]
      | Error =>
          simp [processEstablished, locked_after, cleanup, dataMatched,
            ackInvariant]
      | Close c msg =>
          simp [processEstablished, locked_after, cleanup, dataMatched,
            ackInvariant]
      | DatExp =>
          cases hw : env.scWriteOk <;>
            cases hp : env.proverDriver <;>
              simp [processEstablished, locked_after, cleanup, action_recv_dat_exp,
                hw, hp, dataMatched, ackInvariant]
      | ReRat c =>
          cases hp : env.proverDriver <;>
            simp [processEstablished, locked_after, cleanup, action_recv_re_rat,
              hp, dataMatched, ackInvariant]
      | _ =>
          simp [processEstablished, dataMatched, ackInvariant, hs]
  | HandshakeTimeout =>
      simp [processEstablished, dataMatched, ackInvariant, hs]
  | _ => simp [processEstablished, dataMatched, ackInvariant, hs]

theorem publish_preserves (x : Fsm) :
    (publishHandshakeResult x).current_state = x.current_state
    ∧ (publishHandshakeResult x).ack_flag = x.ack_flag
    ∧ (publishHandshakeResult x).next_send_alternating_bit = x.next_send_alternating_bit
    ∧ (publishHandshakeResult x).expected_alternating_bit = x.expected_alternating_bit
    ∧ (publishHandshakeResult x).ack_timer = x.ack_timer := by
  by_cases ha : x.handshake_result_available = true
  · simp [publishHandshakeResult, ha]
  · have ha2 : x.handshake_result_available = false := by simpa using ha
    cases hst : x.current_state with
    | Closed st => cases st <;> simp [publishHandshakeResult, ha2, hst]
    | _ => simp [publishHandshakeResult, ha2, hst]

theorem publish_spec (x : Fsm) :
    (x.handshake_result_available = true → publishHandshakeResult x = x)
    ∧ (x.handshake_result_available = false → x.current_state = .Established →
        (publishHandshakeResult x).handshake_result = .Successful
        ∧ (publishHandshakeResult x).handshake_result_available = true)
    ∧ (x.handshake_result_available = false → x.current_state = .Closed .Locked →
        (publishHandshakeResult x).handshake_result = .Failed
        ∧ (publishHandshakeResult x).handshake_result_available = true)
    ∧ (x.handshake_result_available = false → x.current_state ≠ .Established →
        x.current_state ≠ .Closed .Locked → publishHandshakeResult x = x) := by
  by_cases ha : x.handshake_result_available = true
  · simp [publishHandshakeResult, ha]
  · have ha2 : x.handshake_result_available = false := by simpa using ha
    cases hst : x.current_state with
    | Closed st => cases st <;> simp [publishHandshakeResult, ha2, hst]
    | _ => simp [publishHandshakeResult, ha2, hst]

theorem publish_noop_of_intermediate (x : Fsm)
    (h1 : x.current_state ≠ .Established) (h2 : x.current_state ≠ .Closed .Locked) :
    publishHandshakeResult x = x := by
  by_cases ha : x.handshake_result_available = true
  · simp [publishHandshakeResult, ha]
  · have ha2 : x.handshake_result_available = false := by simpa using ha
    exact (publish_spec x).2.2.2 ha2 h1 h2

theorem publish_final_available (x : Fsm) :
    ((publishHandshakeResult x).current_state = .Closed .Locked →
      (publishHandshakeResult x).handshake_result_available = true)
    ∧ ((publishHandshakeResult x).current_state = .Established →
      (publishHandshakeResult x).handshake_result_available = true) := by
  by_cases ha : x.handshake_result_available = true
  · simp [publishHandshakeResult, ha]
  · have ha2 : x.handshake_result_available = false := by simpa using ha
    cases hst : x.current_state with
    | Closed st => cases st <;> simp [publishHandshakeResult, ha2, hst]
    | _ => simp [publishHandshakeResult, ha2, hst]

theorem dispatch_facts (env : Env) (m : Fsm) (e : FsmEvent) :
    (dispatchEvent env m e).fsm.handshake_result = m.handshake_result
    ∧ (dispatchEvent env m e).fsm.handshake_result_available
        = m.handshake_result_available
    ∧ (dispatchEvent env m e).fsm.next_send_alternating_bit
        = (if isAckProcessingState m.current_state && ackConsumed m e then
             m.next_send_alternating_bit.alternate
           else m.next_send_alternating_bit)
    ∧ (dispatchEvent env m e).fsm.expected_alternating_bit
        = (if isDataProcessingState m.current_state && dataMatched m e then
             m.expected_alternating_bit.alternate
           else m.expected_alternating_bit)
    ∧ (ackInvariant m → ackInvariant (dispatchEvent env m e).fsm) := by
  cases hst : m.current_state with
  | Closed st =>
      obtain ⟨h1, h2, h3, h4, h5⟩ := processClosed_facts env m st e hst
      simp [dispatchEvent, hst, h1, h2, h3, h4, h5, isAckProcessingState,
        isDataProcessingState]
      exact h5
  | WaitForHello =>
      obtain ⟨h1, h2, h3, h4, h5⟩ := processWaitForHello_facts env m e hst
      simp [dispatchEvent, hst, h1, h2, h3, h4, h5, isAckProcessingState,
        isDataProcessingState]
      exact h5
  | WaitForRat =>
      obtain ⟨h1, h2, h3, h4, h5⟩ := processWaitForRat_facts env m e hst
      simp [dispatchEvent, hst, h1, h2, h3, h4, h5, isAckProcessingState,
        isDataProcessingState]
      exact h5
  | WaitForRatProver =>
      obtain ⟨h1, h2, h3, h4, h5⟩ := processWaitForRatProver_facts env m e hst
      simp [dispatchEvent, hst, h1, h2, h3, h4, h5, isAckProcessingState,
        isDataProcessingState]
      exact h5
  | WaitForRatVerifier =>
      obtain ⟨h1, h2, h3, h4, h5⟩ := processWaitForRatVerifier_facts env m e hst
      simp [dispatchEvent, hst, h1, h2, h3, h4, h5, isAckProcessingState,
        isDataProcessingState]
      exact h5
  | WaitForDatAndRat =>
      obtain ⟨h1, h2, h3, h4, h5⟩ := processWaitForDatAndRat_facts env m e hst
      simp [dispatchEvent, hst, h1, h2, h3, h4, h5, isAckProcessingState,
        isDataProcessingState]
      exact h5
  | WaitForDatAndRatVerifier =>
      obtain ⟨h1, h2, h3, h4, h5⟩ := processWaitForDatAndRatVerifier_facts env m e hst
      simp [dispatchEvent, hst, h1, h2, h3, h4, h5, isAckProcessingState,
        isDataProcessingState]
      exact h5
  | WaitForAck =>
      obtain ⟨h1, h2, h3, h4, h5⟩ := processWaitForAck_facts env m e hst
      simp [dispatchEvent, hst, h1, h2, h3, h4, h5, isAckProcessingState,
        isDataProcessingState]
      exact h5
  | Established =>
      obtain ⟨h1, h2, h3, h4, h5⟩ := processEstablished_facts env m e hst
      simp [dispatchEvent, hst, h1, h2, h3, h4, h5, isAckProcessingState,
        isDataProcessingState]
      exact h5

theorem reachable_ackInvariant {cfg : AttestationConfig} {m : Fsm}
    (h : Reachable cfg m) : ackInvariant m := by
  induction h with
  | init => simp [ackInvariant, initialFsm]
  | step env e hr ih =>
      rename_i m0
      have hd := (dispatch_facts env m0 e).2.2.2.2 ih
      have hp := publish_preserves (dispatchEvent env m0 e).fsm
      simp only [processEvent]
      intro htriple
      rw [hp.2.1]
      exact hd (by rw [hp.1] at htriple; exact htriple)

theorem reachable_final_available {cfg : AttestationConfig} {m : Fsm}
    (h : Reachable cfg m) :
    (m.current_state = .Closed .Locked → m.handshake_result_available = true)
    ∧ (m.current_state = .Established → m.handshake_result_available = true) := by
  induction h with
  | init => simp [initialFsm]
  | step env e hr ih =>
      rename_i m0
      exact publish_final_available (dispatchEvent env m0 e).fsm

/-! Concrete fixtures for witnesses and counterexamples. -/

/-- A configuration offering the single `NullRat` suite on both sides. -/
def cfg0 : AttestationConfig where
  expected_attestation_suite := ["NullRat"]
  supported_attestation_suite := ["NullRat"]

/-- An environment in which every collaborator succeeds: writes go
through, every token parses and verifies, drivers start and accept
messages. -/
def envOK : Env where
  scWriteOk := true
  getToken := [0]
  parseUtf8 := fun b => some b
  verifyToken := fun _ => some 1
  proverDriver := none
  verifierDriver := none
  proverWrite := none
  verifierWrite := none

/-- An environment whose secure-channel writes fail. -/
def envFail : Env where
  scWriteOk := false
  getToken := [0]
  parseUtf8 := fun b => some b
  verifyToken := fun _ => some 1
  proverDriver := none
  verifierDriver := none
  proverWrite := none
  verifierWrite := none

/-- Event trace driving the FSM into `WaitForRatVerifier` with a pending
unacknowledged message: handshake, attestation, one application send,
then a re-attestation timeout while waiting for the ack. -/
def cexTrace : List FsmEvent :=
  [.FromUpper .StartHandshake,
   .FromSecureChannel (.Hello (some [1]) ["NullRat"] ["NullRat"]),
   .FromRatVerifier (.ControlMessage .OK),
   .FromRatProver (.ControlMessage .OK),
   .FromUpper (.Data [7]),
   .RatTimeout]

/-- The FSM state reached by `cexTrace`. -/
def cexFsm : Fsm := runEvents envOK (initialFsm cfg0) cexTrace

theorem runEvents_reachable (cfg : AttestationConfig) (env : Env)
    (es : List FsmEvent) :
    ∀ m : Fsm, Reachable cfg m → Reachable cfg (runEvents env m es) := by
  induction es with
  | nil => intro m h; simpa [runEvents] using h
  | cons e tl ih =>
      intro m h
      simpa [runEvents] using ih _ (Reachable.step env e h)

/-! Claim theorems. -/

/-- C1: `Closed(Locked)` is absorbing: for every reachable FSM in state
`Closed(Locked)` and every event, `process_event` leaves the machine
unchanged, emits no side effect, and returns the `FsmLocked` error. -/
theorem closed_locked_absorbing (cfg : AttestationConfig) (m : Fsm)
    (hr : Reachable cfg m) (hs : m.current_state = .Closed .Locked)
    (env : Env) (e : FsmEvent) :
    processEvent env m e = { fsm := m, out := [], res := .error .FsmLocked } := by
  have hav : m.handshake_result_available = true :=
    (reachable_final_available hr).1 hs
  have hpub : publishHandshakeResult m = m := (publish_spec m).1 hav
  simp [processEvent, dispatchEvent, hs, processClosed, hpub]

/-- C1 witness: after a failed `StartHandshake` the FSM is reachable and
locked, and a subsequent `DatTimeout` is rejected with `FsmLocked` and no
state change. -/
theorem closed_locked_absorbing_witness :
    processEvent envOK
        (processEvent envFail (initialFsm cfg0) (.FromUpper .StartHandshake)).fsm
        .DatTimeout
      = { fsm := (processEvent envFail (initialFsm cfg0)
                    (.FromUpper .StartHandshake)).fsm,
          out := [], res := .error .FsmLocked } :=
  closed_locked_absorbing cfg0 _
    (Reachable.step envFail (.FromUpper .StartHandshake) Reachable.init)
    (by decide) envOK .DatTimeout

/-- C2: both alternating bits start at 0, and across every
`process_event` call the send bit flips exactly when a peer `Ack`
carrying the current send bit is processed (in an ack-processing state
with the ack flag active), while the expected bit flips exactly when a
peer `Data` carrying the expected bit is processed (in a data-processing
state). -/
theorem alternating_bits_spec :
    (∀ cfg : AttestationConfig,
      (initialFsm cfg).next_send_alternating_bit = AlternatingBit.from_bool false
      ∧ (initialFsm cfg).expected_alternating_bit = AlternatingBit.from_bool false)
    ∧ ∀ (env : Env) (m : Fsm) (e : FsmEvent),
      ((processEvent env m e).fsm.next_send_alternating_bit
          ≠ m.next_send_alternating_bit
        ↔ (isAckProcessingState m.current_state = true ∧ ackConsumed m e = true))
      ∧ ((processEvent env m e).fsm.expected_alternating_bit
          ≠ m.expected_alternating_bit
        ↔ (isDataProcessingState m.current_state = true ∧ dataMatched m e = true)) := by
  constructor
  · intro cfg; exact ⟨rfl, rfl⟩
  · intro env m e
    have hd := dispatch_facts env m e
    have hp := publish_preserves (dispatchEvent env m e).fsm
    constructor
    · simp only [processEvent]
      rw [hp.2.2.1, hd.2.2.1]
      by_cases h1 : isAckProcessingState m.current_state = true <;>
        by_cases h2 : ackConsumed m e = true <;>
          simp [h1, h2, AlternatingBit.alternate_ne]
    · simp only [processEvent]
      rw [hp.2.2.2.1, hd.2.2.2.1]
      by_cases h1 : isDataProcessingState m.current_state = true <;>
        by_cases h2 : dataMatched m e = true <;>
          simp [h1, h2, AlternatingBit.alternate_ne]

/-- C5 counterexample: a reachable FSM whose ack flag is `Active` while
the state is `WaitForRatVerifier`, not `WaitForAck` — obtained by a
re-attestation timeout in `WaitForAck`; the flag persists across the
whole excursion, not just during the `Established` to `WaitForAck`
transition. -/
theorem ack_flag_active_outside_wait_for_ack :
    Reachable cfg0 cexFsm
    ∧ cexFsm.ack_flag = .Active [7]
    ∧ cexFsm.current_state = .WaitForRatVerifier
    ∧ cexFsm.current_state ≠ .WaitForAck :=
  ⟨runEvents_reachable cfg0 envOK cexTrace (initialFsm cfg0) Reachable.init,
   by decide, by decide, by decide⟩

/-- C5 (amended): the ack flag can stay `Active` outside `WaitForAck`
(it survives re-attestation and DAT-refresh excursions and entry into
`Closed(Locked)`); the invariant that does hold on every reachable state
is that in `Established`, `WaitForHello` and `Closed(Unlocked)` the ack
flag is `Inactive`. -/
theorem ack_flag_state_invariant (cfg : AttestationConfig) (m : Fsm)
    (hr : Reachable cfg m)
    (hs : m.current_state = .Established ∨ m.current_state = .WaitForHello ∨
      m.current_state = .Closed .Unlocked) :
    m.ack_flag = .Inactive :=
  reachable_ackInvariant hr hs

/-- C5 witness: the freshly created FSM is in `Closed(Unlocked)` and its
ack flag is `Inactive`. -/
theorem ack_flag_state_invariant_witness :
    (initialFsm cfg0).ack_flag = .Inactive :=
  ack_flag_state_invariant cfg0 (initialFsm cfg0) Reachable.init
    (Or.inr (Or.inr rfl))

/-- C8: the handshake result is published exactly once: once published it
never changes; while unpublished, a call ending in `Established` writes
`Successful`, a call ending in `Closed(Locked)` writes `Failed`, and any
other call leaves the result cell untouched and unpublished. -/
theorem handshake_result_published_once (env : Env) (m : Fsm) (e : FsmEvent) :
    (m.handshake_result_available = true →
      (processEvent env m e).fsm.handshake_result = m.handshake_result
      ∧ (processEvent env m e).fsm.handshake_result_available = true)
    ∧ (m.handshake_result_available = false →
        (processEvent env m e).fsm.current_state = .Established →
      (processEvent env m e).fsm.handshake_result = .Successful
      ∧ (processEvent env m e).fsm.handshake_result_available = true)
    ∧ (m.handshake_result_available = false →
        (processEvent env m e).fsm.current_state = .Closed .Locked →
      (processEvent env m e).fsm.handshake_result = .Failed
      ∧ (processEvent env m e).fsm.handshake_result_available = true)
    ∧ (m.handshake_result_available = false →
        (processEvent env m e).fsm.current_state ≠ .Established →
        (processEvent env m e).fsm.current_state ≠ .Closed .Locked →
      (processEvent env m e).fsm.handshake_result = m.handshake_result
      ∧ (processEvent env m e).fsm.handshake_result_available = false) := by
  obtain ⟨d1, d2, _, _, _⟩ := dispatch_facts env m e
  have hps := publish_spec (dispatchEvent env m e).fsm
  have hpp := publish_preserves (dispatchEvent env m e).fsm
  simp only [processEvent]
  refine ⟨?_, ?_, ?_, ?_⟩
  · intro hav
    have h := hps.1 (by rw [d2]; exact hav)
    rw [h]
    exact ⟨d1, by rw [d2]; exact hav⟩
  · intro hav hest
    have hx : (dispatchEvent env m e).fsm.current_state = .Established := by
      rw [← hpp.1]; exact hest
    exact hps.2.1 (by rw [d2]; exact hav) hx
  · intro hav hlok
    have hx : (dispatchEvent env m e).fsm.current_state = .Closed .Locked := by
      rw [← hpp.1]; exact hlok
    exact hps.2.2.1 (by rw [d2]; exact hav) hx
  · intro hav hne hnl
    have hx1 : (dispatchEvent env m e).fsm.current_state ≠ .Established := by
      rw [← hpp.1]; exact hne
    have hx2 : (dispatchEvent env m e).fsm.current_state ≠ .Closed .Locked := by
      rw [← hpp.1]; exact hnl
    have h := hps.2.2.2 (by rw [d2]; exact hav) hx1 hx2
    rw [h]
    exact ⟨d1, by rw [d2]; exact hav⟩

/-- C8 witness: a rejected `Stop` in the fresh unstarted FSM neither
publishes a handshake result nor changes the cell. -/
theorem handshake_result_published_once_witness :
    (processEvent envOK (initialFsm cfg0) (.FromUpper .Stop)).fsm.handshake_result
        = (initialFsm cfg0).handshake_result
    ∧ (processEvent envOK (initialFsm cfg0)
        (.FromUpper .Stop)).fsm.handshake_result_available = false :=
  (handshake_result_published_once envOK (initialFsm cfg0) (.FromUpper .Stop)).2.2.2
    (by decide) (by decide) (by decide)

/-- A `WaitForAck` fixture with a pending payload `[9]` and both
alternating bits at 0. -/
def fsmWaitAck : Fsm where
  current_state := .WaitForAck
  handshake_timer := false
  prover_timer := false
  verifier_timer := false
  rat_timer := true
  ack_timer := true
  dat_timer := true
  handshake_result := .Successful
  handshake_result_available := true
  rat_config := cfg0
  ack_flag := .Active [9]
  expected_alternating_bit := .new
  next_send_alternating_bit := .new

/-- The `WaitForAck` fixture with no cached payload. -/
def fsmWaitAckNoCache : Fsm := { fsmWaitAck with ack_flag := .Inactive }

/-- The pending-payload fixture moved to `WaitForRat`. -/
def fsmMidRat : Fsm := { fsmWaitAck with current_state := .WaitForRat }

/-- C3: in `WaitForAck` with an active ack flag, a peer `Ack` carrying
the current send bit moves the FSM to `Established` with the flag
deactivated, the ack timer cancelled and the send bit flipped; an `Ack`
carrying the other bit changes nothing and is reported as success. -/
theorem wait_for_ack_recv_ack (env : Env) (m : Fsm) (p : List Nat) (b : Bool)
    (hs : m.current_state = .WaitForAck) (hf : m.ack_flag = .Active p) :
    (AlternatingBit.from_bool b = m.next_send_alternating_bit →
      (processEvent env m (.FromSecureChannel (.Ack b))).fsm.current_state
          = .Established
      ∧ (processEvent env m (.FromSecureChannel (.Ack b))).fsm.ack_flag = .Inactive
      ∧ (processEvent env m (.FromSecureChannel (.Ack b))).fsm.ack_timer = false
      ∧ (processEvent env m (.FromSecureChannel (.Ack b))).fsm.next_send_alternating_bit
          = m.next_send_alternating_bit.alternate
      ∧ (processEvent env m (.FromSecureChannel (.Ack b))).res = .ok ())
    ∧ (AlternatingBit.from_bool b ≠ m.next_send_alternating_bit →
      (processEvent env m (.FromSecureChannel (.Ack b))).fsm = m
      ∧ (processEvent env m (.FromSecureChannel (.Ack b))).res = .ok ()) := by
  rcases hnb : m.next_send_alternating_bit with ⟨c⟩
  constructor
  · intro hb
    have hbc : b = c := by
      simpa [AlternatingBit.from_bool, hnb, AlternatingBit.mk.injEq] using hb
    have hd : dispatchEvent env m (.FromSecureChannel (.Ack b))
        = { fsm := { m with ack_flag := .Inactive, ack_timer := false,
                            next_send_alternating_bit :=
                              m.next_send_alternating_bit.alternate,
                            current_state := .Established },
            out := [], res := .ok () } := by
      simp [dispatchEvent, hs, processWaitForAck, action_recv_ack_eq, ackConsumed,
        hf, AckFlag.isActive, hnb, hbc]
    simp only [processEvent, hd]
    refine ⟨?_, ?_, ?_, ?_, trivial⟩
    · rw [(publish_preserves _).1]
    · rw [(publish_preserves _).2.1]
    · rw [(publish_preserves _).2.2.2.2]
    · rw [(publish_preserves _).2.2.1]
      simp [hnb]
  · intro hb
    have hbc : ¬b = c := by
      simpa [AlternatingBit.from_bool, hnb, AlternatingBit.mk.injEq] using hb
    have hd : dispatchEvent env m (.FromSecureChannel (.Ack b))
        = { fsm := m, out := [], res := .ok () } := by
      simp [dispatchEvent, hs, processWaitForAck, action_recv_ack_eq, ackConsumed,
        hf, AckFlag.isActive, hnb, hbc]
    have hpub : publishHandshakeResult m = m :=
      publish_noop_of_intermediate m (by simp [hs]) (by simp [hs])
    simp [processEvent, hd, hpub]

/-- C3 witness: on the concrete `WaitForAck` fixture, `Ack(0)` reaches
`Established` and `Ack(1)` leaves the machine unchanged. -/
theorem wait_for_ack_recv_ack_witness :
    (processEvent envOK fsmWaitAck (.FromSecureChannel (.Ack false))).fsm.current_state
        = .Established
    ∧ (processEvent envOK fsmWaitAck (.FromSecureChannel (.Ack true))).fsm
        = fsmWaitAck :=
  ⟨((wait_for_ack_recv_ack envOK fsmWaitAck [9] false rfl rfl).1 (by decide)).1,
   ((wait_for_ack_recv_ack envOK fsmWaitAck [9] true rfl rfl).2 (by decide)).1⟩

/-- C4: a peer `Data` in `Established` or `WaitForAck` with a mismatched
alternating bit produces no output (no ack, no upward delivery) and
leaves the expected bit and the state unchanged; with the matching bit,
an `Ack` carrying the received bit is written and the payload delivered
upward, the expected bit flips and the state is unchanged. -/
theorem recv_data_policy (env : Env) (m : Fsm) (d : List Nat) (b : Bool)
    (hs : m.current_state = .Established ∨ m.current_state = .WaitForAck) :
    (AlternatingBit.from_bool b ≠ m.expected_alternating_bit →
      (processEvent env m (.FromSecureChannel (.Data d b))).out = []
      ∧ (processEvent env m (.FromSecureChannel (.Data d b))).fsm.expected_alternating_bit
          = m.expected_alternating_bit
      ∧ (processEvent env m (.FromSecureChannel (.Data d b))).fsm.current_state
          = m.current_state)
    ∧ (AlternatingBit.from_bool b = m.expected_alternating_bit →
      (processEvent env m (.FromSecureChannel (.Data d b))).out
          = [.ScWrite (.Ack b), .OnMessage d]
      ∧ (processEvent env m (.FromSecureChannel (.Data d b))).fsm.expected_alternating_bit
          = m.expected_alternating_bit.alternate
      ∧ (processEvent env m (.FromSecureChannel (.Data d b))).fsm.current_state
          = m.current_state) := by
  rcases he : m.expected_alternating_bit with ⟨c⟩
  have harm : dispatchEvent env m (.FromSecureChannel (.Data d b))
      = { fsm := (action_recv_data m d b).1, out := (action_recv_data m d b).2,
          res := .ok () } := by
    rcases hs with h | h <;>
      simp [dispatchEvent, h, processEstablished, processWaitForAck]
  constructor
  · intro hb
    have hbc : ¬b = c := by
      simpa [AlternatingBit.from_bool, he, AlternatingBit.mk.injEq] using hb
    have ha : action_recv_data m d b = (m, []) := by
      simp [action_recv_data, AlternatingBit.from_bool, he, hbc]
    have hp := publish_preserves m
    simp [processEvent, harm, ha, hp.1, hp.2.2.2.1, he]
  · intro hb
    have hbc : b = c := by
      simpa [AlternatingBit.from_bool, he, AlternatingBit.mk.injEq] using hb
    have ha : action_recv_data m d b
        = ({ m with expected_alternating_bit := m.expected_alternating_bit.alternate },
           [.ScWrite (.Ack b), .OnMessage d]) := by
      simp [action_recv_data, AlternatingBit.from_bool, create_idscp_ack, he, hbc]
    have hp := publish_preserves
      { m with expected_alternating_bit := m.expected_alternating_bit.alternate }
    simp only [processEvent, harm, ha]
    refine ⟨trivial, ?_, ?_⟩
    · rw [hp.2.2.2.1]
      simp [he]
    · rw [hp.1]

/-- C4 witness: on the `WaitForAck` fixture (expected bit 0), `Data(d,1)`
is dropped without output and `Data(d,0)` is acked and delivered. -/
theorem recv_data_policy_witness :
    (processEvent envOK fsmWaitAck (.FromSecureChannel (.Data [3] true))).out = []
    ∧ (processEvent envOK fsmWaitAck (.FromSecureChannel (.Data [3] false))).out
        = [.ScWrite (.Ack false), .OnMessage [3]] :=
  ⟨((recv_data_policy envOK fsmWaitAck [3] true (Or.inr rfl)).1 (by decide)).1,
   ((recv_data_policy envOK fsmWaitAck [3] false (Or.inr rfl)).2 (by decide)).1⟩

/-- C7: an `AckTimeout` in `WaitForAck` with an active flag retransmits
exactly the cached payload under the unchanged send bit, restarts the ack
timer and stays in `WaitForAck`; with an inactive flag it returns the
`IdscpDataNotCached` error and changes nothing. -/
theorem wait_for_ack_timeout (env : Env) (m : Fsm)
    (hs : m.current_state = .WaitForAck) :
    (∀ d, m.ack_flag = .Active d → env.scWriteOk = true →
      processEvent env m .AckTimeout
        = { fsm := { m with ack_timer := true },
            out := [.ScWrite (.Data d m.next_send_alternating_bit.bit)],
            res := .ok () })
    ∧ (m.ack_flag = .Inactive →
      processEvent env m .AckTimeout
        = { fsm := m, out := [], res := .error .IdscpDataNotCached }) := by
  constructor
  · intro d hf hw
    have hd : dispatchEvent env m .AckTimeout
        = { fsm := { m with ack_timer := true },
            out := [.ScWrite (.Data d m.next_send_alternating_bit.bit)],
            res := .ok () } := by
      simp [dispatchEvent, hs, processWaitForAck, hf, action_send_data, hw,
        create_idscp_data]
    have hpub : publishHandshakeResult { m with ack_timer := true }
        = { m with ack_timer := true } :=
      publish_noop_of_intermediate _ (by simp [hs]) (by simp [hs])
    simp [processEvent, hd, hpub]
  · intro hf
    have hd : dispatchEvent env m .AckTimeout
        = { fsm := m, out := [], res := .error .IdscpDataNotCached } := by
      simp [dispatchEvent, hs, processWaitForAck, hf]
    have hpub : publishHandshakeResult m = m :=
      publish_noop_of_intermediate m (by simp [hs]) (by simp [hs])
    simp [processEvent, hd, hpub]

/-- C7 witness: on the concrete fixtures, `AckTimeout` resends `[9]` with
bit 0, and fails with `IdscpDataNotCached` when nothing is cached. -/
theorem wait_for_ack_timeout_witness :
    processEvent envOK fsmWaitAck .AckTimeout
      = { fsm := { fsmWaitAck with ack_timer := true },
          out := [.ScWrite (.Data [9] fsmWaitAck.next_send_alternating_bit.bit)],
          res := .ok () }
    ∧ processEvent envOK fsmWaitAckNoCache .AckTimeout
      = { fsm := fsmWaitAckNoCache, out := [], res := .error .IdscpDataNotCached } :=
  ⟨(wait_for_ack_timeout envOK fsmWaitAck rfl).1 [9] rfl rfl,
   (wait_for_ack_timeout envOK fsmWaitAckNoCache rfl).2 rfl⟩

/-- C10: in all five intermediate wait states a peer `Ack` is accepted:
`process_event` returns success with the state unchanged; when the flag is
active and the bit matches the ack is consumed in place exactly as in
`WaitForAck`, otherwise the machine is untouched. -/
theorem intermediate_states_accept_ack (env : Env) (m : Fsm) (b : Bool)
    (hs : m.current_state = .WaitForRat ∨ m.current_state = .WaitForRatProver
      ∨ m.current_state = .WaitForRatVerifier ∨ m.current_state = .WaitForDatAndRat
      ∨ m.current_state = .WaitForDatAndRatVerifier) :
    (processEvent env m (.FromSecureChannel (.Ack b))).res = .ok ()
    ∧ (processEvent env m (.FromSecureChannel (.Ack b))).fsm.current_state
        = m.current_state
    ∧ (∀ p, m.ack_flag = .Active p →
        AlternatingBit.from_bool b = m.next_send_alternating_bit →
        (processEvent env m (.FromSecureChannel (.Ack b))).fsm
          = { m with ack_flag := .Inactive, ack_timer := false,
                     next_send_alternating_bit :=
                       m.next_send_alternating_bit.alternate })
    ∧ ((m.ack_flag = .Inactive ∨
          AlternatingBit.from_bool b ≠ m.next_send_alternating_bit) →
        (processEvent env m (.FromSecureChannel (.Ack b))).fsm = m) := by
  have hd : dispatchEvent env m (.FromSecureChannel (.Ack b))
      = { fsm := (action_recv_ack m b).1, out := [], res := .ok () } := by
    rcases hs with h | h | h | h | h <;>
      simp [dispatchEvent, h, processWaitForRat, processWaitForRatProver,
        processWaitForRatVerifier, processWaitForDatAndRat,
        processWaitForDatAndRatVerifier]
  have hstate : (action_recv_ack m b).1.current_state = m.current_state := by
    rw [action_recv_ack_eq]
    by_cases hc : ackConsumed m (.FromSecureChannel (.Ack b)) = true <;> simp [hc]
  have hpub : publishHandshakeResult (action_recv_ack m b).1
      = (action_recv_ack m b).1 := by
    refine publish_noop_of_intermediate _ ?_ ?_ <;>
      rw [hstate] <;> rcases hs with h | h | h | h | h <;> simp [h]
  refine ⟨by simp [processEvent, hd], by simp [processEvent, hd, hpub, hstate],
    ?_, ?_⟩
  · intro p hf hb
    rcases hnb : m.next_send_alternating_bit with ⟨c⟩
    have hbc : b = c := by
      simpa [AlternatingBit.from_bool, hnb, AlternatingBit.mk.injEq] using hb
    simp only [processEvent, hd, hpub]
    rw [action_recv_ack_eq]
    simp [ackConsumed, hf, AckFlag.isActive, hnb, hbc]
  · intro hdrop
    have hc : ackConsumed m (.FromSecureChannel (.Ack b)) = false := by
      rcases hdrop with hf | hb
      · simp [ackConsumed, hf, AckFlag.isActive]
      · rcases hnb : m.next_send_alternating_bit with ⟨c⟩
        have hbc : ¬b = c := by
          simpa [AlternatingBit.from_bool, hnb, AlternatingBit.mk.injEq] using hb
        cases hf : m.ack_flag <;>
          simp [ackConsumed, hf, AckFlag.isActive, hnb, hbc]
    simp only [processEvent, hd, hpub]
    rw [action_recv_ack_eq]
    simp [hc]

/-- C10 witness: in `WaitForRat` with pending payload `[9]` and send bit
0, `Ack(0)` succeeds and is consumed in place. -/
theorem intermediate_states_accept_ack_witness :
    (processEvent envOK fsmMidRat (.FromSecureChannel (.Ack false))).res = .ok ()
    ∧ (processEvent envOK fsmMidRat (.FromSecureChannel (.Ack false))).fsm
        = { fsmMidRat with ack_flag := .Inactive, ack_timer := false,
                           next_send_alternating_bit :=
                             fsmMidRat.next_send_alternating_bit.alternate } :=
  ⟨(intermediate_states_accept_ack envOK fsmMidRat false (Or.inl rfl)).1,
   (intermediate_states_accept_ack envOK fsmMidRat false (Or.inl rfl)).2.2.1 [9]
     rfl (by decide)⟩

/-- Specification-side description of mechanism negotiation (spec
section 4.1): `negotiate(primary, secondary)` returns the first element
of `primary` that is present in `secondary`, and fails with
`NoRatMechanismMatch` when no common element exists. Stated with
`List.find?` to be compared against the source's nested loops. -/
def negotiateSpec (primary secondary : List String) :
    Except RatNegotiationError String :=
  match primary.find? (fun p => secondary.contains p) with
  | some p => .ok p
  | none => .error .NoRatMechanismMatch

theorem calculate_rat_algorithms_eq_spec (p s : List String) :
    calculate_rat_algorithms p s = negotiateSpec p s := by
  induction p with
  | nil => rfl
  | cons a tl ih =>
      by_cases h : s.contains a = true
      · rw [calculate_rat_algorithms, negotiateSpec, List.find?_cons_of_pos _ h,
          if_pos h]
      · rw [calculate_rat_algorithms, negotiateSpec, List.find?_cons_of_neg _ h,
          if_neg h, ih, negotiateSpec]

theorem negotiateSpec_nil_right (p : List String) :
    negotiateSpec p [] = .error .NoRatMechanismMatch := by
  induction p with
  | nil => rfl
  | cons a tl ih =>
      rw [negotiateSpec, List.find?_cons_of_neg _ (fun h => Bool.noConfusion h)]
      exact ih

/-- C6: mechanism negotiation is the deterministic first-match search:
`calculate_rat_algorithms` returns the first element of the primary list
present in the secondary list; the prover mechanism searches the peer's
expected suites against the own supported suites, the verifier mechanism
searches the own expected suites against the peer's supported suites;
with an empty input or no common element all of them fail with
`NoRatMechanismMatch`. -/
theorem rat_mechanism_negotiation :
    ∀ primary secondary peer_expected own_supported peer_supported
        own_expected : List String,
      calculate_rat_algorithms primary secondary = negotiateSpec primary secondary
      ∧ calculate_rat_algorithms primary [] = .error .NoRatMechanismMatch
      ∧ calculate_rat_algorithms [] secondary = .error .NoRatMechanismMatch
      ∧ calculate_rat_prover_mechanism peer_expected own_supported
          = negotiateSpec peer_expected own_supported
      ∧ calculate_rat_verifier_mechanism peer_supported own_expected
          = negotiateSpec own_expected peer_supported := by
  intro primary secondary pe os ps oe
  refine ⟨calculate_rat_algorithms_eq_spec _ _, ?_, rfl, ?_, ?_⟩
  · rw [calculate_rat_algorithms_eq_spec]
    exact negotiateSpec_nil_right _
  · by_cases h1 : pe.isEmpty = true
    · have hpe : pe = [] := by simpa [List.isEmpty_iff] using h1
      subst hpe
      simp [calculate_rat_prover_mechanism, negotiateSpec]
    · by_cases h2 : os.isEmpty = true
      · have hos : os = [] := by simpa [List.isEmpty_iff] using h2
        subst hos
        simp [calculate_rat_prover_mechanism, h1, negotiateSpec_nil_right]
      · simp [calculate_rat_prover_mechanism, h1, h2,
          calculate_rat_algorithms_eq_spec]
  · by_cases h1 : ps.isEmpty = true
    · have hps : ps = [] := by simpa [List.isEmpty_iff] using h1
      subst hps
      simp [calculate_rat_verifier_mechanism, negotiateSpec_nil_right]
    · by_cases h2 : oe.isEmpty = true
      · have hoe : oe = [] := by simpa [List.isEmpty_iff] using h2
        subst hoe
        simp [calculate_rat_verifier_mechanism, h1, negotiateSpec]
      · simp [calculate_rat_verifier_mechanism, h1, h2,
          calculate_rat_algorithms_eq_spec]

/-- C9: `write_to_driver` fails with `RatDriverInactive` when no driver
content is present, fails with `RatConnectionAborted` when the channel
send to the worker fails, and succeeds otherwise. -/
theorem write_to_driver_spec (iface : RatDriverInterface) (msg : RatMessage) :
    (iface.content = none →
      iface.write_to_driver msg = .error .RatDriverInactive)
    ∧ (∀ c, iface.content = some c →
        (c.tx_to_driver msg = false →
          iface.write_to_driver msg = .error .RatConnectionAborted)
        ∧ (c.tx_to_driver msg = true → iface.write_to_driver msg = .ok ())) := by
  constructor
  · intro h
    simp [RatDriverInterface.write_to_driver, h]
  · intro c h
    constructor <;> intro hsend <;>
      simp [RatDriverInterface.write_to_driver, h, hsend]

/-- An inactive RAT interface. -/
def ifaceInactive : RatDriverInterface := { content := none }

/-- An active RAT interface whose worker channel accepts every message. -/
def ifaceActive : RatDriverInterface :=
  { content := some { tx_to_driver := fun _ => true, tx_to_listener := fun _ => true } }

/-- An active RAT interface whose worker channel is closed. -/
def ifaceAborted : RatDriverInterface :=
  { content := some { tx_to_driver := fun _ => false, tx_to_listener := fun _ => true } }

/-- C9 witness: the three concrete interface states produce the three
specified results. -/
theorem write_to_driver_spec_witness :
    ifaceInactive.write_to_driver (.ControlMessage .OK) = .error .RatDriverInactive
    ∧ ifaceAborted.write_to_driver (.ControlMessage .OK)
        = .error .RatConnectionAborted
    ∧ ifaceActive.write_to_driver (.ControlMessage .OK) = .ok () :=
  ⟨(write_to_driver_spec ifaceInactive (.ControlMessage .OK)).1 rfl,
   ((write_to_driver_spec ifaceAborted (.ControlMessage .OK)).2 _ rfl).1 rfl,
   ((write_to_driver_spec ifaceActive (.ControlMessage .OK)).2 _ rfl).2 rfl⟩

end Idscp2
